import Mathlib

/-!
Verification of the sensu-go backend against its specification.

This file shallowly embeds the parts of the source that the claims concern:

* `backend/apid/graphql/dataloader.go` — the GraphQL dataloader layer:
  paging loops (`listEntities`, `listEvents`), the per-kind batch functions,
  the typed load functions, the error mappers `handleListErr` and
  `handleFetchResult`, and the `eventCacheKey` string codec.
* `backend/cmd/start.go` — the start command: `anyConfig`, the `RunE` body of
  `StartCommand` (modelled as the pure function `startRunE`), and the
  configuration defaults installed by `handleConfig`.

Go strings that the code inspects character by character are modelled as
`List Char` (`GoStr`); strings used only as opaque tokens are Lean `String`s.
Go errors are the inductive `GoErr`: the source compares errors against
sentinel values (`authorization.ErrUnauthorized`, `authorization.ErrNoClaims`)
and by type (`*store.ErrNotFound`), which constructor matching reflects.
-/

/-- A Go string viewed as its character sequence. -/
abbrev GoStr : Type := List Char

/-- Go errors relevant to the dataloader and start command.  Sentinel errors
from the source become constructors; `wrapped head e` models
`fmt.Errorf("<head>: %s", e)`; `other` stands for any further error value. -/
inductive GoErr : Type where
  | errUnauthorized : GoErr
  | errNoClaims : GoErr
  | errNotFound (key : String) : GoErr
  | errLoadersNotFound : GoErr
  | errLoaderNotFound : GoErr
  | errUnexpectedLoaderResult : GoErr
  | wrapped (head : String) (e : GoErr) : GoErr
  | other (msg : String) : GoErr
  deriving DecidableEq, Repr

/-- Source: `handleListErr` (dataloader.go).  `ErrUnauthorized` and
`ErrNoClaims` are swallowed (the warning log is not modelled); every other
error is returned unchanged. -/
def handleListErr (err : Option GoErr) : Option GoErr :=
  if err = some GoErr.errUnauthorized ∨ err = some GoErr.errNoClaims then none
  else err

/-- Source: the `err.(*store.ErrNotFound)` type assertion in
`handleFetchResult`. -/
def isErrNotFound : Option GoErr → Bool
  | some (GoErr.errNotFound _) => true
  | _ => false

/-- Source: `handleFetchResult` (dataloader.go).  The Go `resource` is an
`interface{}` that may be nil, modelled as `Option ρ`. -/
def handleFetchResult {ρ : Type} (resource : Option ρ) (err : Option GoErr) :
    Option ρ × Option GoErr :=
  if err = some GoErr.errUnauthorized ∨ err = some GoErr.errNoClaims then (none, none)
  else if isErrNotFound err then (none, none)
  else
    match err with
    | some e => (none, some e)
    | none => (resource, none)

/-- Source: the `eventCacheKey` struct (dataloader.go).  The Go field
`namespace` is called `ns` here because `namespace` is a Lean keyword. -/
structure eventCacheKey : Type where
  ns : GoStr
  entity : GoStr
  deriving DecidableEq, Repr

/-- Source: `strings.SplitN(key, "\n", 2)` as used by `newEventCacheKey`:
split at the first newline only; a string without a newline stays whole. -/
def splitN2nl : GoStr → List GoStr
  | [] => [[]]
  | c :: rest =>
    if c = '\n' then [[], rest]
    else
      match splitN2nl rest with
      | [] => [[c]]
      | a :: tail => (c :: a) :: tail

/-- Source: `newEventCacheKey` (dataloader.go).  Go indexes `els[1]`
unconditionally and panics when the key holds no newline; that panic is
modelled as `none`. -/
def newEventCacheKey (key : GoStr) : Option eventCacheKey :=
  match splitN2nl key with
  | [a, b] => some ⟨a, b⟩
  | _ => none

/-- Source: `(*eventCacheKey).String` (dataloader.go):
`strings.Join([]string{k.namespace, k.entity}, "\n")`. -/
def eventCacheKey.toStr (k : eventCacheKey) : GoStr :=
  k.ns ++ '\n' :: k.entity

/-- Source: the constant block of dataloader.go (`key` typed iota values). -/
def loadersKey : Nat := 0

/-- Source: dataloader.go iota block. -/
def assetsLoaderKey : Nat := 1

/-- Source: dataloader.go iota block. -/
def checkConfigsLoaderKey : Nat := 2

/-- Source: dataloader.go iota block. -/
def entitiesLoaderKey : Nat := 3

/-- Source: dataloader.go iota block. -/
def eventsLoaderKey : Nat := 4

/-- Source: dataloader.go iota block. -/
def eventFiltersLoaderKey : Nat := 5

/-- Source: dataloader.go iota block. -/
def handlersLoaderKey : Nat := 6

/-- Source: dataloader.go iota block. -/
def mutatorsLoaderKey : Nat := 7

/-- Source: dataloader.go iota block. -/
def namespacesLoaderKey : Nat := 8

/-- Source: dataloader.go iota block. -/
def silencedsLoaderKey : Nat := 9

/-- Source: `loaderPageSize = 250`, the chunk size used by the dataloader when
retrieving resources from the store. -/
def loaderPageSize : Nat := 250

/-- Source: `maxLengthEntityDataloader = 1_000`. -/
def maxLengthEntityDataloader : Nat := 1000

/-- Source: `maxLengthEventDataloader = 1_000`. -/
def maxLengthEventDataloader : Nat := 1000

/-- Source: `maxLengthGenericDataloader = 2_500`. -/
def maxLengthGenericDataloader : Nat := 2500

/-- A paginated list endpoint of the store, as seen through
`store.SelectionPredicate`: the Go client reads `pred.Continue` and
`pred.Limit` and writes the next continue token back into `pred.Continue`.
Here the endpoint is a function of the continue token and the limit that
returns the page and the next token (or an error). -/
def PageStore (α : Type) : Type := GoStr → Nat → Except GoErr (List α × GoStr)

deriving instance DecidableEq for Except

/-- One store call issued by the paging loop: the continue token and limit it
was invoked with, the response, and how many records were accumulated before
the call.  The loop in the source makes these calls through the shared
`pred`; the trace records them so that claims about the individual calls can
be stated. -/
structure StoreCall (α : Type) : Type where
  tok : GoStr
  limit : Nat
  response : Except GoErr (List α × GoStr)
  accBefore : Nat
  deriving DecidableEq, Repr

/-- Result of the paging loop: the records and error returned by the Go
function, plus the trace of store calls it made. -/
structure LoopOut (α : Type) : Type where
  records : List α
  err : Option GoErr
  calls : List (StoreCall α)
  deriving DecidableEq, Repr

/-- Source: the `for` loop shared verbatim by `listEntities` and `listEvents`
(dataloader.go): call the store with the current predicate, return the
records accumulated so far on error, append the page, and stop when the
continue token is empty, the page was short, or the accumulated count reached
`maxSize`.  The Go loop is unbounded; `fuel` is an upper bound on the number
of iterations, and since every iteration that continues appends at least
`loaderPageSize` records while staying under `maxSize`, a fuel of `maxSize`
is provably never exhausted (`listLoop_getLast_break` relies on this). -/
def listLoop {α : Type} (store : PageStore α) (maxSize : Nat) :
    Nat → GoStr → List α → LoopOut α
  | fuel, tok, acc =>
    match store tok loaderPageSize with
    | .error e => ⟨acc, some e, [⟨tok, loaderPageSize, .error e, acc.length⟩]⟩
    | .ok (r, tok₂) =>
      let call : StoreCall α := ⟨tok, loaderPageSize, .ok (r, tok₂), acc.length⟩
      if tok₂ = [] ∨ r.length < loaderPageSize ∨ maxSize ≤ (acc ++ r).length then
        ⟨acc ++ r, none, [call]⟩
      else
        match fuel with
        | 0 => ⟨acc ++ r, none, [call]⟩
        | fuel₂ + 1 =>
          let rest := listLoop store maxSize fuel₂ tok₂ (acc ++ r)
          ⟨rest.records, rest.err, call :: rest.calls⟩

/-- Source: `listEntities` (dataloader.go).  The predicate starts with an
empty continue token and `Limit = int64(loaderPageSize)`; the loop body is
`listLoop`. -/
def listEntities {α : Type} (store : PageStore α) (maxSize : Nat) : LoopOut α :=
  listLoop store maxSize maxSize [] []

/-- The event client of `listEvents`: `ListEvents` lists a namespace,
`ListEventsByEntity` lists one entity of a namespace.  The namespace reaches
the client through `store.NamespaceContext`, modelled as the first
argument. -/
structure EventClientM (ε : Type) : Type where
  listEvents : GoStr → PageStore ε
  listEventsByEntity : GoStr → GoStr → PageStore ε

/-- Source: `listEvents` (dataloader.go).  The inner `list` closure picks
`ListEvents` for an empty entity and `ListEventsByEntity` otherwise; the
paging loop is the same as in `listEntities`. -/
def listEvents {ε : Type} (c : EventClientM ε) (ns entity : GoStr) (maxSize : Nat) :
    LoopOut ε :=
  let list : PageStore ε := fun tok lim =>
    if entity = [] then c.listEvents ns tok lim else c.listEventsByEntity ns entity tok lim
  listLoop list maxSize maxSize [] []

/-- A store endpoint honours the requested limit: no returned page is longer
than the `Limit` of the selection predicate it was called with (here always
`loaderPageSize`). -/
def HonestPageStore {α : Type} (store : PageStore α) : Prop :=
  ∀ tok r tok₂, store tok loaderPageSize = Except.ok (r, tok₂) →
    r.length ≤ loaderPageSize

/-- The condition under which the source loop goes around again, stated of a
traced store call: the response was a full page, the refreshed continue token
is non-empty, and the accumulated count stayed below the clamp. -/
def continueCondB {α : Type} (maxSize : Nat) (c : StoreCall α) : Bool :=
  match c.response with
  | .error _ => false
  | .ok (r, tok₂) =>
    decide (tok₂ ≠ [] ∧ loaderPageSize ≤ r.length ∧ c.accBefore + r.length < maxSize)

/-- The condition under which the source loop stops after a store call: the
call failed, or the continue token is empty, or the page was short, or the
accumulated count reached the clamp. -/
def breakCondB {α : Type} (maxSize : Nat) (c : StoreCall α) : Bool :=
  match c.response with
  | .error _ => true
  | .ok (r, tok₂) =>
    decide (tok₂ = [] ∨ r.length < loaderPageSize ∨ maxSize ≤ c.accBefore + r.length)

/-- Source: `corev2.Asset`.  The dataloader never inspects record fields, so
resources are opaque one-field records. -/
structure Asset : Type where
  name : GoStr
  deriving DecidableEq, Repr

/-- Source: `corev2.CheckConfig` (opaque record, see `Asset`). -/
structure CheckConfig : Type where
  name : GoStr
  deriving DecidableEq, Repr

/-- Source: `corev2.Entity` (opaque record, see `Asset`). -/
structure Entity : Type where
  name : GoStr
  deriving DecidableEq, Repr

/-- Source: `corev2.Event` (opaque record, see `Asset`). -/
structure Event : Type where
  name : GoStr
  deriving DecidableEq, Repr

/-- Source: `corev2.EventFilter` (opaque record, see `Asset`). -/
structure EventFilter : Type where
  name : GoStr
  deriving DecidableEq, Repr

/-- Source: `corev2.Handler` (opaque record, see `Asset`). -/
structure Handler : Type where
  name : GoStr
  deriving DecidableEq, Repr

/-- Source: `corev2.Mutator` (opaque record, see `Asset`). -/
structure Mutator : Type where
  name : GoStr
  deriving DecidableEq, Repr

/-- Source: `corev2.Namespace` (opaque record, see `Asset`). -/
structure NamespaceRec : Type where
  name : GoStr
  deriving DecidableEq, Repr

/-- Source: `corev2.Silenced` (opaque record, see `Asset`). -/
structure Silenced : Type where
  name : GoStr
  deriving DecidableEq, Repr

/-- Source: `dataloader.Result`: the record slice (`Data`) and error of one
batch entry. -/
structure LoaderResult (α : Type) : Type where
  data : List α
  error : Option GoErr
  deriving DecidableEq, Repr

/-- A non-paginated list client of the generic batch functions
(`ListAssets`, `ListChecks`, ...): a function of the namespace installed by
`store.NamespaceContext` and of the `corev2.PageSizeKey` context value. -/
def GenericClient (α : Type) : Type := GoStr → Nat → List α × Option GoErr

/-- Source: `loadAssetsBatchFn` (dataloader.go): one `ListAssets` call per
key, with the namespace set from the key and the page size context value set
to `maxLengthGenericDataloader`. -/
def loadAssetsBatchFn (c : GenericClient Asset) (keys : List GoStr) :
    List (LoaderResult Asset) :=
  keys.map fun key =>
    let res := c key maxLengthGenericDataloader
    ⟨res.1, handleListErr res.2⟩

/-- Source: `loadCheckConfigsBatchFn` (dataloader.go), same shape as
`loadAssetsBatchFn` over `ListChecks`. -/
def loadCheckConfigsBatchFn (c : GenericClient CheckConfig) (keys : List GoStr) :
    List (LoaderResult CheckConfig) :=
  keys.map fun key =>
    let res := c key maxLengthGenericDataloader
    ⟨res.1, handleListErr res.2⟩

/-- Source: `loadEventFiltersBatchFn` (dataloader.go), same shape over
`ListEventFilters`. -/
def loadEventFiltersBatchFn (c : GenericClient EventFilter) (keys : List GoStr) :
    List (LoaderResult EventFilter) :=
  keys.map fun key =>
    let res := c key maxLengthGenericDataloader
    ⟨res.1, handleListErr res.2⟩

/-- Source: `loadHandlersBatchFn` (dataloader.go), same shape over
`ListHandlers`. -/
def loadHandlersBatchFn (c : GenericClient Handler) (keys : List GoStr) :
    List (LoaderResult Handler) :=
  keys.map fun key =>
    let res := c key maxLengthGenericDataloader
    ⟨res.1, handleListErr res.2⟩

/-- Source: `loadMutatorsBatchFn` (dataloader.go), same shape over
`ListMutators`. -/
def loadMutatorsBatchFn (c : GenericClient Mutator) (keys : List GoStr) :
    List (LoaderResult Mutator) :=
  keys.map fun key =>
    let res := c key maxLengthGenericDataloader
    ⟨res.1, handleListErr res.2⟩

/-- Source: `loadSilencedsBatchFn` (dataloader.go), same shape over
`ListSilenced`. -/
def loadSilencedsBatchFn (c : GenericClient Silenced) (keys : List GoStr) :
    List (LoaderResult Silenced) :=
  keys.map fun key =>
    let res := c key maxLengthGenericDataloader
    ⟨res.1, handleListErr res.2⟩

/-- Source: `loadNamespacesBatchFn` (dataloader.go): the key is ignored
(`for range keys`), `ListNamespaces` is called with a zero
`store.SelectionPredicate` and the page size context value; the client is a
function of that page size. -/
def loadNamespacesBatchFn (c : Nat → List NamespaceRec × Option GoErr)
    (keys : List GoStr) : List (LoaderResult NamespaceRec) :=
  keys.map fun _ =>
    let res := c maxLengthGenericDataloader
    ⟨res.1, handleListErr res.2⟩

/-- Source: `loadEntitiesBatchFn` (dataloader.go): a paged `listEntities`
per key with the key as namespace and `maxLengthEntityDataloader` as the
clamp. -/
def loadEntitiesBatchFn (c : GoStr → PageStore Entity) (keys : List GoStr) :
    List (LoaderResult Entity) :=
  keys.map fun key =>
    let out := listEntities (c key) maxLengthEntityDataloader
    ⟨out.records, handleListErr out.err⟩

/-- Source: `loadEventsBatchFn` (dataloader.go): the key string is decoded
by `newEventCacheKey`, then a paged `listEvents` runs with
`maxLengthEventDataloader` as the clamp.  Go panics on a key without a
newline (see `newEventCacheKey`); that case is modelled as an error
result. -/
def loadEventsBatchFn (c : EventClientM Event) (keys : List GoStr) :
    List (LoaderResult Event) :=
  keys.map fun keyStr =>
    match newEventCacheKey keyStr with
    | some k =>
      let out := listEvents c k.ns k.entity maxLengthEventDataloader
      ⟨out.records, handleListErr out.err⟩
    | none => ⟨[], some (GoErr.other "panic: index out of range")⟩

/-- Trivial entity page store used by witnesses: one empty page. -/
def wEntityClient : GoStr → PageStore Entity := fun _ _ _ => Except.ok ([], [])

/-- Trivial event client used by witnesses. -/
def wEventClient : EventClientM Event :=
  ⟨fun _ _ _ => Except.ok ([], []), fun _ _ _ _ => Except.ok ([], [])⟩

/-- Trivial generic client used by witnesses. -/
def wGeneric (α : Type) : GenericClient α := fun _ _ => ([], none)

/-- Trivial namespace client used by witnesses. -/
def wNamespaceClient : Nat → List NamespaceRec × Option GoErr := fun _ => ([], none)

/-- Single-record page store used by the C2 witness. -/
def wNatStore : PageStore Nat := fun _ _ => Except.ok ([0], [])

/-- Trivial event client over `Nat` used by the C2 witness. -/
def wNatEventClient : EventClientM Nat :=
  ⟨fun _ _ _ => Except.ok ([], []), fun _ _ _ _ => Except.ok ([], [])⟩

/-- The `interface{}` payload of a `dataloader.Result`: one of the per-kind
record slices.  `Option LoaderValue` below adds the nil interface. -/
inductive LoaderValue : Type where
  | assets (l : List Asset)
  | checkConfigs (l : List CheckConfig)
  | entities (l : List Entity)
  | events (l : List Event)
  | eventFilters (l : List EventFilter)
  | handlers (l : List Handler)
  | mutators (l : List Mutator)
  | namespaces (l : List NamespaceRec)
  | silenceds (l : List Silenced)
  deriving DecidableEq, Repr

/-- What `loader.Load(ctx, key)()` yields: a type-erased value (possibly nil)
and an error. -/
abbrev DynResult : Type := Option LoaderValue × Option GoErr

/-- Modelled from the spec: the graph-gophers `dataloader` library is not
part of this repository.  Per the spec the loader is a per-request cache
("within one request, multiple lookups for the same key are coalesced into a
single store list"), and `contextWithLoaders` disables batching
(`WithBatchCapacity(1)`), so lookups resolve serially against the cache. -/
structure CachedLoader (κ α : Type) : Type where
  batchFn : κ → α
  cache : List (κ × α)

/-- Modelled from the spec: one serial `Load` — served from the cache when
the key is present, otherwise the batch function (which performs the store
list) runs and the result is cached.  The `Bool` reports whether the store
was reached. -/
def CachedLoader.load {κ α : Type} [BEq κ] (l : CachedLoader κ α) (k : κ) :
    α × CachedLoader κ α × Bool :=
  match l.cache.lookup k with
  | some v => (v, l, false)
  | none =>
    let v := l.batchFn k
    (v, ⟨l.batchFn, (k, v) :: l.cache⟩, true)

/-- Run a serial sequence of loads against one loader, returning the keys
whose load reached the store. -/
def runLoads {κ α : Type} [BEq κ] : CachedLoader κ α → List κ → List κ
  | _, [] => []
  | l, k :: ks =>
    let r := l.load k
    (if r.2.2 then [k] else []) ++ runLoads r.2.1 ks

/-- Source: the clients of `ServiceConfig` that `contextWithLoaders` wires
into the per-kind loaders. -/
structure ServiceConfig : Type where
  assetClient : GenericClient Asset
  checkClient : GenericClient CheckConfig
  entityClient : GoStr → PageStore Entity
  eventClient : EventClientM Event
  eventFilterClient : GenericClient EventFilter
  handlerClient : GenericClient Handler
  mutatorClient : GenericClient Mutator
  namespaceClient : Nat → List NamespaceRec × Option GoErr
  silencedClient : GenericClient Silenced

/-- Type-erase the results of a typed batch function, as the library sees
them (`Data` is an `interface{}`). -/
def dynResults {α : Type} (wrap : List α → LoaderValue) (rs : List (LoaderResult α)) :
    List DynResult :=
  rs.map fun r => (some (wrap r.data), r.error)

/-- Modelled from the spec: `dataloader.NewBatchedLoader` with batch
capacity 1 — each `Load` runs the batch function on the singleton key list
and takes its only result; the cache starts empty.  The `headD` default is
unreachable: every batch function returns one result per key. -/
def newBatchedLoader (batch : List GoStr → List DynResult) :
    CachedLoader GoStr DynResult :=
  ⟨fun k => (batch [k]).headD (none, some GoErr.errUnexpectedLoaderResult), []⟩

/-- Source: `contextWithLoaders` (dataloader.go): install a fresh batched
loader per resource kind, keyed by the iota loader keys, with batching
disabled.  The library caches events on `key.String()`, so all loaders are
keyed by `GoStr`. -/
def contextWithLoaders (cfg : ServiceConfig) :
    Nat → Option (CachedLoader GoStr DynResult) :=
  fun k =>
    if k = assetsLoaderKey then
      some (newBatchedLoader fun keys =>
        dynResults LoaderValue.assets (loadAssetsBatchFn cfg.assetClient keys))
    else if k = checkConfigsLoaderKey then
      some (newBatchedLoader fun keys =>
        dynResults LoaderValue.checkConfigs (loadCheckConfigsBatchFn cfg.checkClient keys))
    else if k = entitiesLoaderKey then
      some (newBatchedLoader fun keys =>
        dynResults LoaderValue.entities (loadEntitiesBatchFn cfg.entityClient keys))
    else if k = eventsLoaderKey then
      some (newBatchedLoader fun keys =>
        dynResults LoaderValue.events (loadEventsBatchFn cfg.eventClient keys))
    else if k = eventFiltersLoaderKey then
      some (newBatchedLoader fun keys =>
        dynResults LoaderValue.eventFilters (loadEventFiltersBatchFn cfg.eventFilterClient keys))
    else if k = handlersLoaderKey then
      some (newBatchedLoader fun keys =>
        dynResults LoaderValue.handlers (loadHandlersBatchFn cfg.handlerClient keys))
    else if k = mutatorsLoaderKey then
      some (newBatchedLoader fun keys =>
        dynResults LoaderValue.mutators (loadMutatorsBatchFn cfg.mutatorClient keys))
    else if k = namespacesLoaderKey then
      some (newBatchedLoader fun keys =>
        dynResults LoaderValue.namespaces (loadNamespacesBatchFn cfg.namespaceClient keys))
    else if k = silencedsLoaderKey then
      some (newBatchedLoader fun keys =>
        dynResults LoaderValue.silenceds (loadSilencedsBatchFn cfg.silencedClient keys))
    else none

/-- Service config with trivial clients, used by witnesses. -/
def wServiceConfig : ServiceConfig :=
  ⟨wGeneric Asset, wGeneric CheckConfig, wEntityClient, wEventClient,
   wGeneric EventFilter, wGeneric Handler, wGeneric Mutator, wNamespaceClient,
   wGeneric Silenced⟩

/-- The asset loader installed by `contextWithLoaders` for the trivial
service config. -/
def wAssetLoader : CachedLoader GoStr DynResult :=
  newBatchedLoader fun keys =>
    dynResults LoaderValue.assets (loadAssetsBatchFn (wGeneric Asset) keys)

/-- The request context as the load functions see it: `none` models a context
without the loaders map (`ctx.Value(loadersKey)` assertion fails). -/
abbrev LoadersCtx : Type := Option (Nat → Option (CachedLoader GoStr DynResult))

/-- Source: `getLoader` (dataloader.go): read the loaders map from the
context (`errLoadersNotFound` when missing), then the loader from the map
(`errLoaderNotFound` when missing). -/
def getLoader (ctx : LoadersCtx) (loaderKey : Nat) :
    Except GoErr (CachedLoader GoStr DynResult) :=
  match ctx with
  | none => Except.error GoErr.errLoadersNotFound
  | some loaders =>
    match loaders loaderKey with
    | none => Except.error GoErr.errLoaderNotFound
    | some loader => Except.ok loader

/-- The Go two-valued type assertion `records, ok := results.(T)`: a nil or
differently-typed `interface{}` yields the zero slice and `false`;
`f` extracts the slice of the expected type. -/
def typeAssert {α : Type} (f : LoaderValue → Option (List α)) :
    Option LoaderValue → List α × Bool
  | some lv =>
    match f lv with
    | some l => (l, true)
    | none => ([], false)
  | none => ([], false)

/-- Source: `results.([]*corev2.Asset)` in `loadAssets`. -/
def asAssets : Option LoaderValue → List Asset × Bool :=
  typeAssert fun lv => match lv with | LoaderValue.assets l => some l | _ => none

/-- Source: `results.([]*corev2.CheckConfig)` in `loadCheckConfigs`. -/
def asCheckConfigs : Option LoaderValue → List CheckConfig × Bool :=
  typeAssert fun lv => match lv with | LoaderValue.checkConfigs l => some l | _ => none

/-- Source: `results.([]*corev2.Entity)` in `loadEntities`. -/
def asEntities : Option LoaderValue → List Entity × Bool :=
  typeAssert fun lv => match lv with | LoaderValue.entities l => some l | _ => none

/-- Source: `results.([]*corev2.Event)` in `loadEvents`. -/
def asEvents : Option LoaderValue → List Event × Bool :=
  typeAssert fun lv => match lv with | LoaderValue.events l => some l | _ => none

/-- Source: `results.([]*corev2.EventFilter)` in `loadEventFilters`. -/
def asEventFilters : Option LoaderValue → List EventFilter × Bool :=
  typeAssert fun lv => match lv with | LoaderValue.eventFilters l => some l | _ => none

/-- Source: `results.([]*corev2.Handler)` in `loadHandlers`. -/
def asHandlers : Option LoaderValue → List Handler × Bool :=
  typeAssert fun lv => match lv with | LoaderValue.handlers l => some l | _ => none

/-- Source: `results.([]*corev2.Mutator)` in `loadMutators`. -/
def asMutators : Option LoaderValue → List Mutator × Bool :=
  typeAssert fun lv => match lv with | LoaderValue.mutators l => some l | _ => none

/-- Source: `results.([]*corev2.Namespace)` in `loadNamespaces`. -/
def asNamespaces : Option LoaderValue → List NamespaceRec × Bool :=
  typeAssert fun lv => match lv with | LoaderValue.namespaces l => some l | _ => none

/-- Source: `results.([]*corev2.Silenced)` in `loadSilenceds`. -/
def asSilenceds : Option LoaderValue → List Silenced × Bool :=
  typeAssert fun lv => match lv with | LoaderValue.silenceds l => some l | _ => none

/-- Source: `loadAssets` (dataloader.go): fetch the loader, run `Load` on the
namespace key, type-assert the result, and wrap `errUnexpectedLoaderResult`
when the loader reported no error but the value has the wrong type. -/
def loadAssets (ctx : LoadersCtx) (ns : GoStr) : List Asset × Option GoErr :=
  match getLoader ctx assetsLoaderKey with
  | Except.error e => ([], some e)
  | Except.ok loader =>
    let results := (loader.load ns).1
    let recOk := asAssets results.1
    let err := if results.2 = none ∧ recOk.2 = false then
        some (GoErr.wrapped "asset loader" GoErr.errUnexpectedLoaderResult)
      else results.2
    (recOk.1, err)

/-- Source: `loadCheckConfigs` (dataloader.go), shape of `loadAssets`. -/
def loadCheckConfigs (ctx : LoadersCtx) (ns : GoStr) : List CheckConfig × Option GoErr :=
  match getLoader ctx checkConfigsLoaderKey with
  | Except.error e => ([], some e)
  | Except.ok loader =>
    let results := (loader.load ns).1
    let recOk := asCheckConfigs results.1
    let err := if results.2 = none ∧ recOk.2 = false then
        some (GoErr.wrapped "check loader" GoErr.errUnexpectedLoaderResult)
      else results.2
    (recOk.1, err)

/-- Source: `loadEntities` (dataloader.go), shape of `loadAssets`. -/
def loadEntities (ctx : LoadersCtx) (ns : GoStr) : List Entity × Option GoErr :=
  match getLoader ctx entitiesLoaderKey with
  | Except.error e => ([], some e)
  | Except.ok loader =>
    let results := (loader.load ns).1
    let recOk := asEntities results.1
    let err := if results.2 = none ∧ recOk.2 = false then
        some (GoErr.wrapped "entity loader" GoErr.errUnexpectedLoaderResult)
      else results.2
    (recOk.1, err)

/-- Source: `loadEvents` (dataloader.go): the cache key is the string form of
`eventCacheKey{ns, entity}`. -/
def loadEvents (ctx : LoadersCtx) (ns entity : GoStr) : List Event × Option GoErr :=
  match getLoader ctx eventsLoaderKey with
  | Except.error e => ([], some e)
  | Except.ok loader =>
    let key : eventCacheKey := ⟨ns, entity⟩
    let results := (loader.load key.toStr).1
    let recOk := asEvents results.1
    let err := if results.2 = none ∧ recOk.2 = false then
        some (GoErr.wrapped "event loader" GoErr.errUnexpectedLoaderResult)
      else results.2
    (recOk.1, err)

/-- Source: `loadEventFilters` (dataloader.go), shape of `loadAssets`. -/
def loadEventFilters (ctx : LoadersCtx) (ns : GoStr) : List EventFilter × Option GoErr :=
  match getLoader ctx eventFiltersLoaderKey with
  | Except.error e => ([], some e)
  | Except.ok loader =>
    let results := (loader.load ns).1
    let recOk := asEventFilters results.1
    let err := if results.2 = none ∧ recOk.2 = false then
        some (GoErr.wrapped "filter loader" GoErr.errUnexpectedLoaderResult)
      else results.2
    (recOk.1, err)

/-- Source: `loadHandlers` (dataloader.go), shape of `loadAssets`. -/
def loadHandlers (ctx : LoadersCtx) (ns : GoStr) : List Handler × Option GoErr :=
  match getLoader ctx handlersLoaderKey with
  | Except.error e => ([], some e)
  | Except.ok loader =>
    let results := (loader.load ns).1
    let recOk := asHandlers results.1
    let err := if results.2 = none ∧ recOk.2 = false then
        some (GoErr.wrapped "handler loader" GoErr.errUnexpectedLoaderResult)
      else results.2
    (recOk.1, err)

/-- Source: `loadMutators` (dataloader.go), shape of `loadAssets`. -/
def loadMutators (ctx : LoadersCtx) (ns : GoStr) : List Mutator × Option GoErr :=
  match getLoader ctx mutatorsLoaderKey with
  | Except.error e => ([], some e)
  | Except.ok loader =>
    let results := (loader.load ns).1
    let recOk := asMutators results.1
    let err := if results.2 = none ∧ recOk.2 = false then
        some (GoErr.wrapped "mutator loader" GoErr.errUnexpectedLoaderResult)
      else results.2
    (recOk.1, err)

/-- Source: `loadNamespaces` (dataloader.go): the key is the fixed string
`"*"`. -/
def loadNamespaces (ctx : LoadersCtx) : List NamespaceRec × Option GoErr :=
  match getLoader ctx namespacesLoaderKey with
  | Except.error e => ([], some e)
  | Except.ok loader =>
    let results := (loader.load ['*']).1
    let recOk := asNamespaces results.1
    let err := if results.2 = none ∧ recOk.2 = false then
        some (GoErr.wrapped "namespace loader" GoErr.errUnexpectedLoaderResult)
      else results.2
    (recOk.1, err)

/-- Source: `loadSilenceds` (dataloader.go), shape of `loadAssets`. -/
def loadSilenceds (ctx : LoadersCtx) (ns : GoStr) : List Silenced × Option GoErr :=
  match getLoader ctx silencedsLoaderKey with
  | Except.error e => ([], some e)
  | Except.ok loader =>
    let results := (loader.load ns).1
    let recOk := asSilenceds results.1
    let err := if results.2 = none ∧ recOk.2 = false then
        some (GoErr.wrapped "silenced loader" GoErr.errUnexpectedLoaderResult)
      else results.2
    (recOk.1, err)

/-- Loader whose thunk yields a nil value and no error; used by the C10
witness. -/
def wNilLoader : CachedLoader GoStr DynResult := ⟨fun _ => (none, none), []⟩

/-- Loaders map installing `wNilLoader` at every key; used by the C10
witness. -/
def wNilLoaders : Nat → Option (CachedLoader GoStr DynResult) :=
  fun _ => some wNilLoader

/-- Source: `etcd.TLSInfo` as used in the `EtcdConfigurationStore` literal of
start.go. -/
structure TLSInfo : Type where
  certFile : String
  keyFile : String
  trustedCAFile : String
  clientCertAuth : Bool
  deriving DecidableEq, Repr

/-- Source: `backend.EtcdConfig` (fields set by start.go). -/
structure EtcdConfig : Type where
  clientTLSInfo : TLSInfo
  urls : List String
  username : String
  password : String
  logLevel : String
  useEmbeddedClient : Bool
  deriving DecidableEq, Repr

/-- The Go zero value of `backend.EtcdConfig` (`var zero backend.EtcdConfig`
in `anyConfig`). -/
def zeroEtcdConfig : EtcdConfig :=
  ⟨⟨"", "", "", false⟩, [], "", "", "", false⟩

/-- Source: `anyConfig` (start.go): `!reflect.DeepEqual(cfg, zero)`. -/
def anyConfig (cfg : EtcdConfig) : Bool :=
  decide (cfg ≠ zeroEtcdConfig)

/-- Source: `backend.PostgresConfig` (the DSN field set by start.go). -/
structure PostgresConfig : Type where
  dsn : String
  deriving DecidableEq, Repr

/-- Source: `backend.StoreConfig` as built by start.go. -/
structure StoreConfig : Type where
  configurationStore : String
  stateStore : String
  postgresConfigurationStore : PostgresConfig
  postgresStateStore : PostgresConfig
  etcdConfigurationStore : EtcdConfig
  deriving DecidableEq, Repr

/-- Source: `corev2.TLSOptions` as built by the TLS block of start.go. -/
structure TLSOptions : Type where
  certFile : String
  keyFile : String
  trustedCAFile : String
  insecureSkipVerify : Bool
  deriving DecidableEq, Repr

/-- Source: the `backend.Config` literal of start.go.  `time.Duration`
values are nanosecond integers; the `rate.Limit` float is modelled as `Rat`
(it is only passed through). -/
structure BackendConfig : Type where
  agentHost : String
  agentPort : Int
  agentWriteTimeout : Int
  apiListenAddress : String
  apiRequestLimit : Int
  apiURL : String
  apiWriteTimeout : Int
  assetsRateLimit : Rat
  assetsBurstLimit : Int
  dashboardHost : String
  dashboardPort : Int
  dashboardTLSCertFile : String
  dashboardTLSKeyFile : String
  dashboardWriteTimeout : Int
  deregistrationHandler : String
  cacheDir : String
  stateDir : String
  devMode : Bool
  labels : List (String × String)
  annotations : List (String × String)
  disablePlatformMetrics : Bool
  platformMetricsLoggingInterval : Int
  platformMetricsLogFile : String
  eventLogBufferSize : Int
  eventLogBufferWait : Int
  eventLogFile : String
  eventLogParallelEncoders : Bool
  store : StoreConfig
  tls : Option TLSOptions
  deriving DecidableEq, Repr

/-- The effective configuration values the `RunE` body reads from viper
(each field is the result of the corresponding `viper.Get*` call), plus the
state of the `--labels` / `--annotations` flags (`flag.Changed` and the
bound map variables). -/
structure ViperConfig : Type where
  logLevel : String
  devMode : Bool
  configStore : String
  agentHost : String
  agentPort : Int
  agentWriteTimeout : Int
  apiListenAddress : String
  apiRequestLimit : Int
  apiURL : String
  apiWriteTimeout : Int
  assetsRateLimit : Rat
  assetsBurstLimit : Int
  dashboardHost : String
  dashboardPort : Int
  dashboardCertFile : String
  dashboardKeyFile : String
  dashboardWriteTimeout : Int
  deregistrationHandler : String
  cacheDir : String
  stateDir : String
  labels : List (String × String)
  annotations : List (String × String)
  disablePlatformMetrics : Bool
  platformMetricsLoggingInterval : Int
  platformMetricsLogFile : String
  eventLogBufferSize : Int
  eventLogBufferWait : Int
  eventLogFile : String
  eventLogParallelEncoders : Bool
  pgConfigStoreDSN : String
  pgStateStoreDSN : String
  etcdCertFile : String
  etcdKeyFile : String
  etcdCACert : String
  etcdClientCertAuth : Bool
  etcdURLs : List String
  etcdUsername : String
  etcdPassword : String
  etcdLogLevel : String
  certFile : String
  keyFile : String
  trustedCAFile : String
  insecureSkipTLSVerify : Bool
  debug : Bool
  labelsFlagChanged : Bool
  labelsFlag : List (String × String)
  annotationsFlagChanged : Bool
  annotationsFlag : List (String × String)
  deriving DecidableEq, Repr

/-- Models `logrus.ParseLevel` (library code, not in the sources): the level
names it accepts. -/
def logLevels : List String :=
  ["panic", "fatal", "error", "warn", "warning", "info", "debug", "trace"]

/-- Whether `logrus.ParseLevel` succeeds on the configured level. -/
def parseLogLevelOk (s : String) : Bool :=
  logLevels.contains s

/-- Source: start.go `RunE`: `stateStore := "postgres"`, overridden to
`"dev"` in dev mode. -/
def selectedStateStore (v : ViperConfig) : String :=
  if v.devMode then "dev" else "postgres"

/-- Source: start.go `RunE`: `configStore := viper.GetString(flagConfigStore)`,
overridden to `"dev"` in dev mode. -/
def selectedConfigStore (v : ViperConfig) : String :=
  if v.devMode then "dev" else v.configStore

/-- Source: the `EtcdConfigurationStore` literal of start.go; note
`UseEmbeddedClient: viper.GetBool(flagDevMode)`. -/
def etcdConfigOf (v : ViperConfig) : EtcdConfig :=
  { clientTLSInfo :=
      { certFile := v.etcdCertFile
        keyFile := v.etcdKeyFile
        trustedCAFile := v.etcdCACert
        clientCertAuth := v.etcdClientCertAuth }
    urls := v.etcdURLs
    username := v.etcdUsername
    password := v.etcdPassword
    logLevel := v.etcdLogLevel
    useEmbeddedClient := v.devMode }

/-- Source: the `backend.Config` literal of start.go (the `cfg := ...`
assignment); `TLS` starts nil and is only set by the later TLS block. -/
def buildConfig (v : ViperConfig) : BackendConfig :=
  { agentHost := v.agentHost
    agentPort := v.agentPort
    agentWriteTimeout := v.agentWriteTimeout
    apiListenAddress := v.apiListenAddress
    apiRequestLimit := v.apiRequestLimit
    apiURL := v.apiURL
    apiWriteTimeout := v.apiWriteTimeout
    assetsRateLimit := v.assetsRateLimit
    assetsBurstLimit := v.assetsBurstLimit
    dashboardHost := v.dashboardHost
    dashboardPort := v.dashboardPort
    dashboardTLSCertFile := v.dashboardCertFile
    dashboardTLSKeyFile := v.dashboardKeyFile
    dashboardWriteTimeout := v.dashboardWriteTimeout
    deregistrationHandler := v.deregistrationHandler
    cacheDir := v.cacheDir
    stateDir := v.stateDir
    devMode := v.devMode
    labels := v.labels
    annotations := v.annotations
    disablePlatformMetrics := v.disablePlatformMetrics
    platformMetricsLoggingInterval := v.platformMetricsLoggingInterval
    platformMetricsLogFile := v.platformMetricsLogFile
    eventLogBufferSize := v.eventLogBufferSize
    eventLogBufferWait := v.eventLogBufferWait
    eventLogFile := v.eventLogFile
    eventLogParallelEncoders := v.eventLogParallelEncoders
    store :=
      { configurationStore := selectedConfigStore v
        stateStore := selectedStateStore v
        postgresConfigurationStore := ⟨v.pgConfigStoreDSN⟩
        postgresStateStore := ⟨v.pgStateStoreDSN⟩
        etcdConfigurationStore := etcdConfigOf v }
    tls := none }

/-- Placeholder for the directory created by `os.MkdirTemp("", "sensu-cache")`
in dev mode; the failure path of `MkdirTemp` is not modelled. -/
def devTempCacheDir : String := "/tmp/sensu-cache"

/-- Placeholder for the directory created by `os.MkdirTemp("", "sensu-state")`
in dev mode. -/
def devTempStateDir : String := "/tmp/sensu-state"

/-- Source: the cache-dir block of start.go: dev mode with an empty cache dir
gets a temp dir; otherwise an empty cache dir is an error. -/
def fixCacheDir (cfg : BackendConfig) : Except String BackendConfig :=
  if cfg.devMode = true ∧ cfg.cacheDir = "" then
    Except.ok { cfg with cacheDir := devTempCacheDir }
  else if cfg.cacheDir = "" then Except.error "cache dir not set"
  else Except.ok cfg

/-- Source: the state-dir block of start.go, like `fixCacheDir`. -/
def fixStateDir (cfg : BackendConfig) : Except String BackendConfig :=
  if cfg.devMode = true ∧ cfg.stateDir = "" then
    Except.ok { cfg with stateDir := devTempStateDir }
  else if cfg.stateDir = "" then Except.error "state dir not set"
  else Except.ok cfg

/-- Source: the label/annotation flag overrides of start.go: a changed
`--labels` / `--annotations` flag replaces the viper-derived maps. -/
def applyFlagOverrides (v : ViperConfig) (cfg : BackendConfig) : BackendConfig :=
  let cfg₂ := if v.labelsFlagChanged then { cfg with labels := v.labelsFlag } else cfg
  if v.annotationsFlagChanged then { cfg₂ with annotations := v.annotationsFlag } else cfg₂

/-- Source: the Sensu API TLS block of start.go: both cert and key yield a
`TLSOptions`; exactly one of them is an error. -/
def tlsConfigCheck (v : ViperConfig) (cfg : BackendConfig) : Except String BackendConfig :=
  if v.certFile ≠ "" ∧ v.keyFile ≠ "" then
    Except.ok
      { cfg with
        tls := some ⟨v.certFile, v.keyFile, v.trustedCAFile, v.insecureSkipTLSVerify⟩ }
  else if v.certFile ≠ "" ∨ v.keyFile ≠ "" then
    Except.error "tls configuration error, both flags --cert-file & --key-file are required"
  else Except.ok cfg

/-- Outcome of the modelled `RunE`: an error before the `backend.Config` was
built, an error after (carrying the config at the failure point), or a call
of the initializer with the final config.  The signal handling, profiling
and `RunWithInitializer` stages past the `initialize` call are not
modelled. -/
inductive StartOutcome : Type where
  | earlyErr (msg : String)
  | configErr (cfg : BackendConfig) (msg : String)
  | initialized (cfg : BackendConfig)
  deriving DecidableEq, Repr

/-- Source: start.go from the etcd-configuration guard to the `initialize`
call: the guard error, then the TLS checks, then the dashboard TLS parity
check (`cf != kf` on the emptiness of cert and key), then `initialize`. -/
def etcdGuard (v : ViperConfig) (cfg₃ : BackendConfig) : StartOutcome :=
  if cfg₃.store.configurationStore ≠ "etcd" ∧
      anyConfig cfg₃.store.etcdConfigurationStore = true then
    StartOutcome.configErr cfg₃ "etcd configuration specified, but config-store is not etcd"
  else
    match tlsConfigCheck v cfg₃ with
    | Except.error msg => StartOutcome.configErr cfg₃ msg
    | Except.ok cfg₄ =>
      if decide (cfg₄.dashboardTLSCertFile.length = 0) ≠
          decide (cfg₄.dashboardTLSKeyFile.length = 0) then
        StartOutcome.configErr cfg₄
          "dashboard tls configuration error, both flags --dashboard-cert-file and --dashboard-key-file are required"
      else StartOutcome.initialized cfg₄

/-- Source: start.go after the `backend.Config` literal: directory fixups,
flag overrides, then `etcdGuard`. -/
def startAfterConfig (v : ViperConfig) (cfg₀ : BackendConfig) : StartOutcome :=
  match fixCacheDir cfg₀ with
  | Except.error msg => StartOutcome.configErr cfg₀ msg
  | Except.ok cfg₁ =>
    match fixStateDir cfg₁ with
    | Except.error msg => StartOutcome.configErr cfg₁ msg
    | Except.ok cfg₂ => etcdGuard v (applyFlagOverrides v cfg₂)

/-- Source: the `RunE` body of `StartCommand` (start.go), as a pure function
of the effective viper configuration.  `setupErr` (the config-file load) is
assumed nil; the `logrus.ParseLevel` error message is not modelled
literally. -/
def startRunE (v : ViperConfig) : StartOutcome :=
  if parseLogLevelOk v.logLevel = false then StartOutcome.earlyErr "invalid log level"
  else if selectedConfigStore v = "postgres" then
    StartOutcome.earlyErr "postgres config store not supported yet"
  else startAfterConfig v (buildConfig v)

/-- Base viper configuration used by witnesses: server defaults with
explicit cache and state dirs. -/
def wViperBase : ViperConfig :=
  { logLevel := "warn"
    devMode := false
    configStore := "etcd"
    agentHost := "[::]"
    agentPort := 8081
    agentWriteTimeout := 15
    apiListenAddress := "[::]:8080"
    apiRequestLimit := 512000
    apiURL := "http://localhost:8080"
    apiWriteTimeout := 15000000000
    assetsRateLimit := 0
    assetsBurstLimit := 100
    dashboardHost := "[::]"
    dashboardPort := 3000
    dashboardCertFile := ""
    dashboardKeyFile := ""
    dashboardWriteTimeout := 15000000000
    deregistrationHandler := ""
    cacheDir := "/var/cache/sensu/sensu-backend"
    stateDir := "/var/lib/sensu/sensu-backend"
    labels := []
    annotations := []
    disablePlatformMetrics := false
    platformMetricsLoggingInterval := 60000000000
    platformMetricsLogFile := ""
    eventLogBufferSize := 100000
    eventLogBufferWait := 10000000
    eventLogFile := ""
    eventLogParallelEncoders := false
    pgConfigStoreDSN := ""
    pgStateStoreDSN := ""
    etcdCertFile := ""
    etcdKeyFile := ""
    etcdCACert := ""
    etcdClientCertAuth := false
    etcdURLs := []
    etcdUsername := ""
    etcdPassword := ""
    etcdLogLevel := ""
    certFile := ""
    keyFile := ""
    trustedCAFile := ""
    insecureSkipTLSVerify := false
    debug := false
    labelsFlagChanged := false
    labelsFlag := []
    annotationsFlagChanged := false
    annotationsFlag := [] }

/-- A value stored in viper: strings, ints, bools, durations (nanoseconds)
and floats (as `Rat`; only passed through). -/
inductive ViperValue : Type where
  | vstr (s : String)
  | vint (n : Int)
  | vbool (b : Bool)
  | vdur (nanos : Int)
  | vfloat (q : Rat)
  deriving DecidableEq, Repr

/-- Source: flag name constants of start.go. -/
def flagAgentHost : String := "agent-host"

/-- Source: start.go flag constants. -/
def flagAgentPort : String := "agent-port"

/-- Source: start.go flag constants. -/
def flagAPIListenAddress : String := "api-listen-address"

/-- Source: start.go flag constants. -/
def flagAPIRequestLimit : String := "api-request-limit"

/-- Source: start.go flag constants. -/
def flagAPIURL : String := "api-url"

/-- Source: start.go flag constants. -/
def flagAPIWriteTimeout : String := "api-write-timeout"

/-- Source: start.go flag constants. -/
def flagAssetsRateLimit : String := "assets-rate-limit"

/-- Source: start.go flag constants. -/
def flagAssetsBurstLimit : String := "assets-burst-limit"

/-- Source: start.go flag constants. -/
def flagDashboardHost : String := "dashboard-host"

/-- Source: start.go flag constants. -/
def flagDashboardPort : String := "dashboard-port"

/-- Source: start.go flag constants. -/
def flagDashboardCertFile : String := "dashboard-cert-file"

/-- Source: start.go flag constants. -/
def flagDashboardKeyFile : String := "dashboard-key-file"

/-- Source: start.go flag constants. -/
def flagDashboardWriteTimeout : String := "dashboard-write-timeout"

/-- Source: start.go flag constants. -/
def flagDeregistrationHandler : String := "deregistration-handler"

/-- Source: start.go flag constants. -/
def flagCertFile : String := "cert-file"

/-- Source: start.go flag constants. -/
def flagKeyFile : String := "key-file"

/-- Source: start.go flag constants. -/
def flagTrustedCAFile : String := "trusted-ca-file"

/-- Source: start.go flag constants. -/
def flagInsecureSkipTLSVerify : String := "insecure-skip-tls-verify"

/-- Source: start.go flag constants. -/
def flagLogLevel : String := "log-level"

/-- Source: start.go flag constants. -/
def flagDisablePlatformMetrics : String := "disable-platform-metrics"

/-- Source: start.go flag constants. -/
def flagPlatformMetricsLoggingInterval : String := "platform-metrics-logging-interval"

/-- Source: start.go flag constants. -/
def flagPlatformMetricsLogFile : String := "platform-metrics-log-file"

/-- Source: start.go flag constants. -/
def flagEventLogBufferSize : String := "event-log-buffer-size"

/-- Source: start.go flag constants. -/
def flagEventLogBufferWait : String := "event-log-buffer-wait"

/-- Source: start.go flag constants. -/
def flagEventLogFile : String := "event-log-file"

/-- Source: start.go flag constants. -/
def flagEventLogParallelEncoders : String := "event-log-parallel-encoders"

/-- Source: start.go flag constants. -/
def flagEtcdConfigStoreLogLevel : String := "etcd-config-store-log-level"

/-- Modelled from the spec: `backend.FlagEventdWorkers` is defined outside
the sources; the spec names the option `eventd_workers`. -/
def FlagEventdWorkers : String := "eventd_workers"

/-- Modelled from the spec: `backend.FlagEventdBufferSize` is defined outside
the sources; the spec names the option `eventd_buffer_size`. -/
def FlagEventdBufferSize : String := "eventd_buffer_size"

/-- Modelled from the spec: `backend.FlagKeepalivedWorkers` is defined
outside the sources; the spec names the option `keepalived_workers`. -/
def FlagKeepalivedWorkers : String := "keepalived_workers"

/-- Modelled from the spec: `backend.FlagKeepalivedBufferSize` is defined
outside the sources; the spec names the option `keepalived_buffer_size`. -/
def FlagKeepalivedBufferSize : String := "keepalived_buffer_size"

/-- Modelled from the spec: `backend.FlagPipelinedWorkers` is defined outside
the sources; the spec names the option `pipelined_workers`. -/
def FlagPipelinedWorkers : String := "pipelined_workers"

/-- Modelled from the spec: `backend.FlagPipelinedBufferSize` is defined
outside the sources; the spec names the option `pipelined_buffer_size`. -/
def FlagPipelinedBufferSize : String := "pipelined_buffer_size"

/-- Modelled from the spec: `backend.FlagAgentWriteTimeout` is defined
outside the sources; the spec names the option `agent_write_timeout`
(seconds). -/
def FlagAgentWriteTimeout : String := "agent_write_timeout"

/-- Default values imported from packages outside the sources
(`middlewares.MaxBytesLimit`, `asset.DefaultAssetsRateLimit`,
`asset.DefaultAssetsBurstLimit`, the platform metrics log path under
`path.SystemLogDir()`, `etcd.DefaultClientLogLevel`); the claims do not
depend on them, so they are parameters of the defaults table. -/
structure ExternalDefaults : Type where
  maxBytesLimit : Int
  assetsRateLimit : Rat
  assetsBurstLimit : Int
  platformMetricsLogFile : String
  etcdClientLogLevel : String

/-- Source: the `viper.SetDefault` calls of `handleConfig` guarded by
`server` (start.go), in source order. -/
def serverDefaults (ext : ExternalDefaults) : List (String × ViperValue) :=
  [(flagAgentHost, ViperValue.vstr "[::]"),
   (flagAgentPort, ViperValue.vint 8081),
   (flagAPIListenAddress, ViperValue.vstr "[::]:8080"),
   (flagAPIRequestLimit, ViperValue.vint ext.maxBytesLimit),
   (flagAPIURL, ViperValue.vstr "http://localhost:8080"),
   (flagAPIWriteTimeout, ViperValue.vstr "15s"),
   (flagAssetsRateLimit, ViperValue.vfloat ext.assetsRateLimit),
   (flagAssetsBurstLimit, ViperValue.vint ext.assetsBurstLimit),
   (flagDashboardHost, ViperValue.vstr "[::]"),
   (flagDashboardPort, ViperValue.vint 3000),
   (flagDashboardCertFile, ViperValue.vstr ""),
   (flagDashboardKeyFile, ViperValue.vstr ""),
   (flagDashboardWriteTimeout, ViperValue.vstr "15s"),
   (flagDeregistrationHandler, ViperValue.vstr ""),
   (flagCertFile, ViperValue.vstr ""),
   (flagKeyFile, ViperValue.vstr ""),
   (flagTrustedCAFile, ViperValue.vstr ""),
   (flagInsecureSkipTLSVerify, ViperValue.vbool false),
   (flagLogLevel, ViperValue.vstr "warn"),
   (FlagEventdWorkers, ViperValue.vint 100),
   (FlagEventdBufferSize, ViperValue.vint 1000),
   (FlagKeepalivedWorkers, ViperValue.vint 100),
   (FlagKeepalivedBufferSize, ViperValue.vint 1000),
   (FlagPipelinedWorkers, ViperValue.vint 100),
   (FlagPipelinedBufferSize, ViperValue.vint 1000),
   (FlagAgentWriteTimeout, ViperValue.vint 15),
   (flagDisablePlatformMetrics, ViperValue.vbool false),
   (flagPlatformMetricsLoggingInterval, ViperValue.vdur 60000000000),
   (flagPlatformMetricsLogFile, ViperValue.vstr ext.platformMetricsLogFile),
   (flagEventLogBufferWait, ViperValue.vdur 10000000),
   (flagEventLogBufferSize, ViperValue.vint 100000),
   (flagEventLogFile, ViperValue.vstr ""),
   (flagEventLogParallelEncoders, ViperValue.vbool false)]

/-- Source: `handleConfig` (start.go): the server defaults when `server` is
set, then the etcd client log level default (unconditional). -/
def handleConfigDefaults (ext : ExternalDefaults) (server : Bool) :
    List (String × ViperValue) :=
  (if server then serverDefaults ext else []) ++
    [(flagEtcdConfigStoreLogLevel, ViperValue.vstr ext.etcdClientLogLevel)]

/-- Viper lookup: an explicit setting (flag, environment variable, or config
file) takes precedence; otherwise the default installed by `handleConfig`. -/
def viperGet (overrides : String → Option ViperValue) (ext : ExternalDefaults)
    (server : Bool) (k : String) : Option ViperValue :=
  match overrides k with
  | some x => some x
  | none => (handleConfigDefaults ext server).lookup k

/-- Unfolding of `listLoop` when the store call fails. -/
theorem listLoop_eq_error {α : Type} {store : PageStore α} {maxSize fuel : Nat}
    {tok : GoStr} {acc : List α} {e : GoErr}
    (hs : store tok loaderPageSize = Except.error e) :
    listLoop store maxSize fuel tok acc =
      ⟨acc, some e, [⟨tok, loaderPageSize, Except.error e, acc.length⟩]⟩ := by
  rw [listLoop, hs]

/-- Unfolding of `listLoop` when the store call succeeds and a stop condition
holds. -/
theorem listLoop_eq_break {α : Type} {store : PageStore α} {maxSize fuel : Nat}
    {tok tok₂ : GoStr} {acc r : List α}
    (hs : store tok loaderPageSize = Except.ok (r, tok₂))
    (hb : tok₂ = [] ∨ r.length < loaderPageSize ∨ maxSize ≤ (acc ++ r).length) :
    listLoop store maxSize fuel tok acc =
      ⟨acc ++ r, none, [⟨tok, loaderPageSize, Except.ok (r, tok₂), acc.length⟩]⟩ := by
  rw [listLoop, hs]
  dsimp only
  rw [if_pos hb]

/-- Unfolding of `listLoop` when the store call succeeds, no stop condition
holds, and fuel remains. -/
theorem listLoop_eq_cont {α : Type} {store : PageStore α} {maxSize n : Nat}
    {tok tok₂ : GoStr} {acc r : List α}
    (hs : store tok loaderPageSize = Except.ok (r, tok₂))
    (hb : ¬ (tok₂ = [] ∨ r.length < loaderPageSize ∨ maxSize ≤ (acc ++ r).length)) :
    listLoop store maxSize (n + 1) tok acc =
      ⟨(listLoop store maxSize n tok₂ (acc ++ r)).records,
       (listLoop store maxSize n tok₂ (acc ++ r)).err,
       ⟨tok, loaderPageSize, Except.ok (r, tok₂), acc.length⟩ ::
         (listLoop store maxSize n tok₂ (acc ++ r)).calls⟩ := by
  rw [listLoop, hs]
  dsimp only
  rw [if_neg hb]

/-- Unfolding of `listLoop` when no stop condition holds but the fuel is
exhausted (shown unreachable from `listEntities` and `listEvents` by
`listLoop_getLast_break`). -/
theorem listLoop_zero_eq_cont {α : Type} {store : PageStore α} {maxSize : Nat}
    {tok tok₂ : GoStr} {acc r : List α}
    (hs : store tok loaderPageSize = Except.ok (r, tok₂))
    (hb : ¬ (tok₂ = [] ∨ r.length < loaderPageSize ∨ maxSize ≤ (acc ++ r).length)) :
    listLoop store maxSize 0 tok acc =
      ⟨acc ++ r, none, [⟨tok, loaderPageSize, Except.ok (r, tok₂), acc.length⟩]⟩ := by
  rw [listLoop, hs]
  dsimp only
  rw [if_neg hb]

/-- If every store page respects the requested limit and both the records
accumulated so far and the clamp are multiples of the page size, the loop
never returns more than `maxSize` records. -/
theorem listLoop_records_le {α : Type} (store : PageStore α) (maxSize : Nat)
    (hstore : HonestPageStore store) (hdvd : loaderPageSize ∣ maxSize) :
    ∀ fuel tok acc, loaderPageSize ∣ acc.length → acc.length < maxSize →
      (listLoop store maxSize fuel tok acc).records.length ≤ maxSize := by
  intro fuel
  induction fuel with
  | zero =>
    intro tok acc hacc hlt
    cases hs : store tok loaderPageSize with
    | error e =>
      rw [listLoop_eq_error hs]
      exact Nat.le_of_lt hlt
    | ok p =>
      obtain ⟨r, tok₂⟩ := p
      have hr : r.length ≤ loaderPageSize := hstore _ _ _ hs
      by_cases hb : tok₂ = [] ∨ r.length < loaderPageSize ∨ maxSize ≤ (acc ++ r).length
      · rw [listLoop_eq_break hs hb]
        obtain ⟨i, hi⟩ := hacc
        obtain ⟨m, hm⟩ := hdvd
        simp only [loaderPageSize] at hi hm hr
        simp only [List.length_append]
        omega
      · rw [listLoop_zero_eq_cont hs hb]
        push_neg at hb
        exact Nat.le_of_lt hb.2.2
  | succ n ih =>
    intro tok acc hacc hlt
    cases hs : store tok loaderPageSize with
    | error e =>
      rw [listLoop_eq_error hs]
      exact Nat.le_of_lt hlt
    | ok p =>
      obtain ⟨r, tok₂⟩ := p
      have hr : r.length ≤ loaderPageSize := hstore _ _ _ hs
      by_cases hb : tok₂ = [] ∨ r.length < loaderPageSize ∨ maxSize ≤ (acc ++ r).length
      · rw [listLoop_eq_break hs hb]
        obtain ⟨i, hi⟩ := hacc
        obtain ⟨m, hm⟩ := hdvd
        simp only [loaderPageSize] at hi hm hr
        simp only [List.length_append]
        omega
      · rw [listLoop_eq_cont hs hb]
        push_neg at hb
        obtain ⟨h1, h2, h3⟩ := hb
        refine ih tok₂ (acc ++ r) ?_ h3
        obtain ⟨i, hi⟩ := hacc
        refine ⟨i + 1, ?_⟩
        simp only [loaderPageSize, List.length_append] at hi hr h2 ⊢
        omega

/-- The paging loop always makes at least one store call. -/
theorem listLoop_calls_ne_nil {α : Type} (store : PageStore α) (maxSize fuel : Nat)
    (tok : GoStr) (acc : List α) :
    (listLoop store maxSize fuel tok acc).calls ≠ [] := by
  cases hs : store tok loaderPageSize with
  | error e => rw [listLoop_eq_error hs]; simp
  | ok p =>
    obtain ⟨r, tok₂⟩ := p
    by_cases hb : tok₂ = [] ∨ r.length < loaderPageSize ∨ maxSize ≤ (acc ++ r).length
    · rw [listLoop_eq_break hs hb]; simp
    · cases fuel with
      | zero => rw [listLoop_zero_eq_cont hs hb]; simp
      | succ n => rw [listLoop_eq_cont hs hb]; simp

/-- Every store call of the paging loop passes `loaderPageSize` as the
limit. -/
theorem listLoop_calls_limit {α : Type} (store : PageStore α) (maxSize : Nat) :
    ∀ fuel tok acc, ∀ c ∈ (listLoop store maxSize fuel tok acc).calls,
      c.limit = loaderPageSize := by
  intro fuel
  induction fuel with
  | zero =>
    intro tok acc c hc
    cases hs : store tok loaderPageSize with
    | error e =>
      rw [listLoop_eq_error hs] at hc
      simp only [List.mem_singleton] at hc
      simp [hc]
    | ok p =>
      obtain ⟨r, tok₂⟩ := p
      by_cases hb : tok₂ = [] ∨ r.length < loaderPageSize ∨ maxSize ≤ (acc ++ r).length
      · rw [listLoop_eq_break hs hb] at hc
        simp only [List.mem_singleton] at hc
        simp [hc]
      · rw [listLoop_zero_eq_cont hs hb] at hc
        simp only [List.mem_singleton] at hc
        simp [hc]
  | succ n ih =>
    intro tok acc c hc
    cases hs : store tok loaderPageSize with
    | error e =>
      rw [listLoop_eq_error hs] at hc
      simp only [List.mem_singleton] at hc
      simp [hc]
    | ok p =>
      obtain ⟨r, tok₂⟩ := p
      by_cases hb : tok₂ = [] ∨ r.length < loaderPageSize ∨ maxSize ≤ (acc ++ r).length
      · rw [listLoop_eq_break hs hb] at hc
        simp only [List.mem_singleton] at hc
        simp [hc]
      · rw [listLoop_eq_cont hs hb] at hc
        simp only [List.mem_cons] at hc
        rcases hc with hc | hc
        · simp [hc]
        · exact ih tok₂ (acc ++ r) c hc

/-- Every store call of the paging loop except the last satisfied the
continuation condition: a full page, a fresh continue token, and an
accumulated count still below the clamp. -/
theorem listLoop_dropLast_continue {α : Type} (store : PageStore α) (maxSize : Nat) :
    ∀ fuel tok acc, ∀ c ∈ (listLoop store maxSize fuel tok acc).calls.dropLast,
      continueCondB maxSize c = true := by
  intro fuel
  induction fuel with
  | zero =>
    intro tok acc c hc
    cases hs : store tok loaderPageSize with
    | error e =>
      rw [listLoop_eq_error hs] at hc
      simp at hc
    | ok p =>
      obtain ⟨r, tok₂⟩ := p
      by_cases hb : tok₂ = [] ∨ r.length < loaderPageSize ∨ maxSize ≤ (acc ++ r).length
      · rw [listLoop_eq_break hs hb] at hc
        simp at hc
      · rw [listLoop_zero_eq_cont hs hb] at hc
        simp at hc
  | succ n ih =>
    intro tok acc c hc
    cases hs : store tok loaderPageSize with
    | error e =>
      rw [listLoop_eq_error hs] at hc
      simp at hc
    | ok p =>
      obtain ⟨r, tok₂⟩ := p
      by_cases hb : tok₂ = [] ∨ r.length < loaderPageSize ∨ maxSize ≤ (acc ++ r).length
      · rw [listLoop_eq_break hs hb] at hc
        simp at hc
      · rw [listLoop_eq_cont hs hb] at hc
        have hne := listLoop_calls_ne_nil store maxSize n tok₂ (acc ++ r)
        obtain ⟨d, l, hdl⟩ : ∃ d l,
            (listLoop store maxSize n tok₂ (acc ++ r)).calls = d :: l := by
          cases hcalls : (listLoop store maxSize n tok₂ (acc ++ r)).calls with
          | nil => exact absurd hcalls hne
          | cons d l => exact ⟨d, l, rfl⟩
        rw [hdl] at hc
        simp only [List.dropLast_cons₂, List.mem_cons] at hc
        push_neg at hb
        rcases hc with hc | hc
        · subst hc
          simp only [continueCondB, decide_eq_true_eq, List.length_append]
          exact ⟨hb.1, hb.2.1, by simpa using hb.2.2⟩
        · have hrec := ih tok₂ (acc ++ r) c
          rw [hdl] at hrec
          exact hrec (by simpa [List.dropLast_cons₂] using hc)

/-- As long as the fuel covers the clamp, the last store call of the paging
loop satisfied a stop condition: an error, an empty continue token, a short
page, or an accumulated count at or above the clamp. -/
theorem listLoop_getLast_break {α : Type} (store : PageStore α) (maxSize : Nat) :
    ∀ fuel tok acc, maxSize ≤ fuel + acc.length →
      ∀ c, (listLoop store maxSize fuel tok acc).calls.getLast? = some c →
        breakCondB maxSize c = true := by
  intro fuel
  induction fuel with
  | zero =>
    intro tok acc hfuel c hc
    cases hs : store tok loaderPageSize with
    | error e =>
      rw [listLoop_eq_error hs] at hc
      simp only [List.getLast?_singleton, Option.some.injEq] at hc
      simp [← hc, breakCondB]
    | ok p =>
      obtain ⟨r, tok₂⟩ := p
      by_cases hb : tok₂ = [] ∨ r.length < loaderPageSize ∨ maxSize ≤ (acc ++ r).length
      · rw [listLoop_eq_break hs hb] at hc
        simp only [List.getLast?_singleton, Option.some.injEq] at hc
        subst hc
        simp only [breakCondB, decide_eq_true_eq, List.length_append] at hb ⊢
        simpa using hb
      · push_neg at hb
        simp only [List.length_append] at hb
        omega
  | succ n ih =>
    intro tok acc hfuel c hc
    cases hs : store tok loaderPageSize with
    | error e =>
      rw [listLoop_eq_error hs] at hc
      simp only [List.getLast?_singleton, Option.some.injEq] at hc
      simp [← hc, breakCondB]
    | ok p =>
      obtain ⟨r, tok₂⟩ := p
      by_cases hb : tok₂ = [] ∨ r.length < loaderPageSize ∨ maxSize ≤ (acc ++ r).length
      · rw [listLoop_eq_break hs hb] at hc
        simp only [List.getLast?_singleton, Option.some.injEq] at hc
        subst hc
        simp only [breakCondB, decide_eq_true_eq, List.length_append] at hb ⊢
        simpa using hb
      · rw [listLoop_eq_cont hs hb] at hc
        push_neg at hb
        have hlen : loaderPageSize ≤ r.length := hb.2.1
        have hne := listLoop_calls_ne_nil store maxSize n tok₂ (acc ++ r)
        obtain ⟨d, l, hdl⟩ : ∃ d l,
            (listLoop store maxSize n tok₂ (acc ++ r)).calls = d :: l := by
          cases hcalls : (listLoop store maxSize n tok₂ (acc ++ r)).calls with
          | nil => exact absurd hcalls hne
          | cons d l => exact ⟨d, l, rfl⟩
        rw [hdl, List.getLast?_cons_cons] at hc
        have hrec := ih tok₂ (acc ++ r) (by
          simp only [loaderPageSize, List.length_append] at hlen ⊢
          omega) c
        rw [hdl] at hrec
        exact hrec hc

/-- `splitN2nl` splits a newline-free head off exactly. -/
theorem splitN2nl_append (a b : GoStr) (h : '\n' ∉ a) :
    splitN2nl (a ++ '\n' :: b) = [a, b] := by
  induction a with
  | nil => simp [splitN2nl]
  | cons c a ih =>
    have hc : c ≠ '\n' := fun hc => h (hc ▸ List.mem_cons_self c a)
    have ha : '\n' ∉ a := fun hm => h (List.mem_cons_of_mem c hm)
    simp [splitN2nl, hc, ih ha]

/-- C3: for every list error passed to `handleListErr`,
`authorization.ErrUnauthorized` and `authorization.ErrNoClaims` are mapped to
nil (so the dataloader result carries the empty record set), every other
non-nil error is returned unchanged, and nil stays nil. -/
theorem C3_handleListErr_mapping :
    handleListErr (some GoErr.errUnauthorized) = none ∧
    handleListErr (some GoErr.errNoClaims) = none ∧
    (∀ e : GoErr, e ≠ GoErr.errUnauthorized → e ≠ GoErr.errNoClaims →
      handleListErr (some e) = some e) ∧
    handleListErr none = none := by
  refine ⟨by simp [handleListErr], by simp [handleListErr], ?_, by simp [handleListErr]⟩
  intro e h1 h2
  simp [handleListErr, h1, h2]

/-- Witness for C3 at a concrete non-authorization error. -/
theorem C3_handleListErr_mapping_witness :
    handleListErr (some (GoErr.other "store exploded")) =
      some (GoErr.other "store exploded") :=
  C3_handleListErr_mapping.2.2.1 (GoErr.other "store exploded")
    (by decide) (by decide)

/-- C4: `handleFetchResult` maps not-found and authorization errors to a null
resource with no error, passes any other non-nil error through unchanged (with
a nil resource), and returns the resource itself exactly when the error is
nil. -/
theorem C4_handleFetchResult_mapping {ρ : Type} (res : Option ρ) (err : Option GoErr) :
    ((err = some GoErr.errUnauthorized ∨ err = some GoErr.errNoClaims ∨
        (∃ k, err = some (GoErr.errNotFound k))) →
      handleFetchResult res err = (none, none)) ∧
    (∀ e : GoErr, err = some e → e ≠ GoErr.errUnauthorized → e ≠ GoErr.errNoClaims →
      (∀ k, e ≠ GoErr.errNotFound k) →
      handleFetchResult res err = (none, some e)) ∧
    (err = none → handleFetchResult res err = (res, none)) := by
  refine ⟨?_, ?_, ?_⟩
  · rintro (h | h | ⟨k, h⟩) <;> subst h <;> simp [handleFetchResult, isErrNotFound]
  · intro e he h1 h2 h3
    subst he
    have h4 : isErrNotFound (some e) = false := by
      cases e with
      | errNotFound k => exact absurd rfl (h3 k)
      | _ => rfl
    simp [handleFetchResult, h1, h2, h4]
  · intro h
    subst h
    simp [handleFetchResult, isErrNotFound]

/-- Witness for C4: a not-found error yields `(nil, nil)`, a plain error
passes through, and a nil error returns the resource. -/
theorem C4_handleFetchResult_mapping_witness :
    handleFetchResult (some (3 : Nat)) (some (GoErr.errNotFound "entities/web01")) =
      (none, none) ∧
    handleFetchResult (some (3 : Nat)) (some (GoErr.other "io timeout")) =
      (none, some (GoErr.other "io timeout")) ∧
    handleFetchResult (some (3 : Nat)) none = (some 3, none) :=
  ⟨(C4_handleFetchResult_mapping (some 3) _).1 (Or.inr (Or.inr ⟨_, rfl⟩)),
   (C4_handleFetchResult_mapping (some 3) _).2.1 (GoErr.other "io timeout") rfl
     (by decide) (by decide) (fun k h => GoErr.noConfusion h),
   (C4_handleFetchResult_mapping (some 3) none).2.2 rfl⟩

/-- C8: for a key whose namespace holds no newline, decoding the string form
recovers the key: `newEventCacheKey (k.String())` has the same namespace and
entity as `k`. -/
theorem C8_eventCacheKey_roundtrip (k : eventCacheKey) (h : '\n' ∉ k.ns) :
    newEventCacheKey (eventCacheKey.toStr k) = some k := by
  simp [newEventCacheKey, eventCacheKey.toStr, splitN2nl_append _ _ h]

/-- Witness for C8 at a concrete key. -/
theorem C8_eventCacheKey_roundtrip_witness :
    newEventCacheKey (eventCacheKey.toStr ⟨"default".toList, "web01".toList⟩) =
      some ⟨"default".toList, "web01".toList⟩ :=
  C8_eventCacheKey_roundtrip ⟨"default".toList, "web01".toList⟩ (by decide)

/-- C1: every list performed by a dataloader batch function is clamped to the
per-resource maximum — at most `maxLengthEntityDataloader = 1000` records for
entities, at most `maxLengthEventDataloader = 1000` for events, and at most
`maxLengthGenericDataloader = 2500` for assets, checks, filters, handlers,
mutators, namespaces and silenced entries (whose clamp is the page-size
context value honoured by the store clients). -/
theorem C1_dataloader_clamped
    (entityClient : GoStr → PageStore Entity) (eventClient : EventClientM Event)
    (assetClient : GenericClient Asset) (checkClient : GenericClient CheckConfig)
    (filterClient : GenericClient EventFilter) (handlerClient : GenericClient Handler)
    (mutatorClient : GenericClient Mutator)
    (namespaceClient : Nat → List NamespaceRec × Option GoErr)
    (silencedClient : GenericClient Silenced)
    (hentity : ∀ ns, HonestPageStore (entityClient ns))
    (hevent1 : ∀ ns, HonestPageStore (eventClient.listEvents ns))
    (hevent2 : ∀ ns entity, HonestPageStore (eventClient.listEventsByEntity ns entity))
    (hasset : ∀ ns ps, (assetClient ns ps).1.length ≤ ps)
    (hcheck : ∀ ns ps, (checkClient ns ps).1.length ≤ ps)
    (hfilter : ∀ ns ps, (filterClient ns ps).1.length ≤ ps)
    (hhandler : ∀ ns ps, (handlerClient ns ps).1.length ≤ ps)
    (hmutator : ∀ ns ps, (mutatorClient ns ps).1.length ≤ ps)
    (hnamespace : ∀ ps, (namespaceClient ps).1.length ≤ ps)
    (hsilenced : ∀ ns ps, (silencedClient ns ps).1.length ≤ ps)
    (keys : List GoStr) :
    (∀ res ∈ loadEntitiesBatchFn entityClient keys,
      res.data.length ≤ maxLengthEntityDataloader) ∧
    (∀ res ∈ loadEventsBatchFn eventClient keys,
      res.data.length ≤ maxLengthEventDataloader) ∧
    (∀ res ∈ loadAssetsBatchFn assetClient keys,
      res.data.length ≤ maxLengthGenericDataloader) ∧
    (∀ res ∈ loadCheckConfigsBatchFn checkClient keys,
      res.data.length ≤ maxLengthGenericDataloader) ∧
    (∀ res ∈ loadEventFiltersBatchFn filterClient keys,
      res.data.length ≤ maxLengthGenericDataloader) ∧
    (∀ res ∈ loadHandlersBatchFn handlerClient keys,
      res.data.length ≤ maxLengthGenericDataloader) ∧
    (∀ res ∈ loadMutatorsBatchFn mutatorClient keys,
      res.data.length ≤ maxLengthGenericDataloader) ∧
    (∀ res ∈ loadNamespacesBatchFn namespaceClient keys,
      res.data.length ≤ maxLengthGenericDataloader) ∧
    (∀ res ∈ loadSilencedsBatchFn silencedClient keys,
      res.data.length ≤ maxLengthGenericDataloader) := by
  refine ⟨?_, ?_, ?_, ?_, ?_, ?_, ?_, ?_, ?_⟩
  · intro res hres
    simp only [loadEntitiesBatchFn, List.mem_map] at hres
    obtain ⟨key, hkey, hres⟩ := hres
    subst hres
    exact listLoop_records_le (entityClient key) maxLengthEntityDataloader
      (hentity key) ⟨4, rfl⟩ maxLengthEntityDataloader [] [] ⟨0, rfl⟩
      (by norm_num [maxLengthEntityDataloader])
  · intro res hres
    simp only [loadEventsBatchFn, List.mem_map] at hres
    obtain ⟨key, hkey, hres⟩ := hres
    subst hres
    cases hk : newEventCacheKey key with
    | none => simp only [hk]; exact Nat.zero_le _
    | some k =>
      simp only [hk]
      refine listLoop_records_le _ maxLengthEventDataloader ?_ ⟨4, rfl⟩
        maxLengthEventDataloader [] [] ⟨0, rfl⟩
        (by norm_num [maxLengthEventDataloader])
      intro tok r tok₂ h
      by_cases he : k.entity = []
      · exact hevent1 k.ns tok r tok₂ (by simpa [he] using h)
      · exact hevent2 k.ns k.entity tok r tok₂ (by simpa [he] using h)
  · intro res hres
    simp only [loadAssetsBatchFn, List.mem_map] at hres
    obtain ⟨key, hkey, hres⟩ := hres
    subst hres
    exact hasset key maxLengthGenericDataloader
  · intro res hres
    simp only [loadCheckConfigsBatchFn, List.mem_map] at hres
    obtain ⟨key, hkey, hres⟩ := hres
    subst hres
    exact hcheck key maxLengthGenericDataloader
  · intro res hres
    simp only [loadEventFiltersBatchFn, List.mem_map] at hres
    obtain ⟨key, hkey, hres⟩ := hres
    subst hres
    exact hfilter key maxLengthGenericDataloader
  · intro res hres
    simp only [loadHandlersBatchFn, List.mem_map] at hres
    obtain ⟨key, hkey, hres⟩ := hres
    subst hres
    exact hhandler key maxLengthGenericDataloader
  · intro res hres
    simp only [loadMutatorsBatchFn, List.mem_map] at hres
    obtain ⟨key, hkey, hres⟩ := hres
    subst hres
    exact hmutator key maxLengthGenericDataloader
  · intro res hres
    simp only [loadNamespacesBatchFn, List.mem_map] at hres
    obtain ⟨key, hkey, hres⟩ := hres
    subst hres
    exact hnamespace maxLengthGenericDataloader
  · intro res hres
    simp only [loadSilencedsBatchFn, List.mem_map] at hres
    obtain ⟨key, hkey, hres⟩ := hres
    subst hres
    exact hsilenced key maxLengthGenericDataloader

/-- Witness for C1: the asset batch result for one key under a trivial
client, with every honesty hypothesis discharged at those clients. -/
theorem C1_dataloader_clamped_witness :
    (⟨[], none⟩ : LoaderResult Asset).data.length ≤ maxLengthGenericDataloader :=
  (C1_dataloader_clamped wEntityClient wEventClient (wGeneric Asset)
      (wGeneric CheckConfig) (wGeneric EventFilter) (wGeneric Handler)
      (wGeneric Mutator) wNamespaceClient (wGeneric Silenced)
      (by intro ns tok r tok₂ h
          simp only [wEntityClient, Except.ok.injEq, Prod.mk.injEq] at h
          simp [← h.1])
      (by intro ns tok r tok₂ h
          simp only [wEventClient, Except.ok.injEq, Prod.mk.injEq] at h
          simp [← h.1])
      (by intro ns entity tok r tok₂ h
          simp only [wEventClient, Except.ok.injEq, Prod.mk.injEq] at h
          simp [← h.1])
      (fun ns ps => Nat.zero_le ps) (fun ns ps => Nat.zero_le ps)
      (fun ns ps => Nat.zero_le ps) (fun ns ps => Nat.zero_le ps)
      (fun ns ps => Nat.zero_le ps) (fun ps => Nat.zero_le ps)
      (fun ns ps => Nat.zero_le ps) [[]]).2.2.1
    ⟨[], none⟩ (by decide)

/-- C2: for both paginated dataloader lists, every store call requests a page
of `loaderPageSize = 250` records, every call but the last met the
continuation condition (full page, fresh continue token, count below the
clamp), and the last call met a stop condition (error, empty continue token,
short page, or count at the clamp). -/
theorem C2_paging_loop (maxSize : Nat) {α ε : Type} (store : PageStore α)
    (c : EventClientM ε) (ns entity : GoStr) :
    (∀ d ∈ (listEntities store maxSize).calls, d.limit = loaderPageSize) ∧
    (∀ d ∈ (listEntities store maxSize).calls.dropLast,
      continueCondB maxSize d = true) ∧
    (∀ d, (listEntities store maxSize).calls.getLast? = some d →
      breakCondB maxSize d = true) ∧
    (∀ d ∈ (listEvents c ns entity maxSize).calls, d.limit = loaderPageSize) ∧
    (∀ d ∈ (listEvents c ns entity maxSize).calls.dropLast,
      continueCondB maxSize d = true) ∧
    (∀ d, (listEvents c ns entity maxSize).calls.getLast? = some d →
      breakCondB maxSize d = true) := by
  refine ⟨?_, ?_, ?_, ?_, ?_, ?_⟩
  · exact fun d hd => listLoop_calls_limit store maxSize maxSize [] [] d hd
  · exact fun d hd => listLoop_dropLast_continue store maxSize maxSize [] [] d hd
  · exact fun d hd =>
      listLoop_getLast_break store maxSize maxSize [] [] (by simp) d hd
  · exact fun d hd => listLoop_calls_limit _ maxSize maxSize [] [] d hd
  · exact fun d hd => listLoop_dropLast_continue _ maxSize maxSize [] [] d hd
  · exact fun d hd =>
      listLoop_getLast_break _ maxSize maxSize [] [] (by simp) d hd

/-- Witness for C2: with a one-page store and clamp 1, the last (only) store
call of `listEntities` satisfied a stop condition. -/
theorem C2_paging_loop_witness :
    breakCondB 1 (⟨[], loaderPageSize, Except.ok ([0], []), 0⟩ : StoreCall Nat) = true :=
  (C2_paging_loop 1 wNatStore wNatEventClient [] []).2.2.1
    ⟨[], loaderPageSize, Except.ok ([0], []), 0⟩ (by decide)

/-- A key already in the cache never reaches the store again. -/
theorem runLoads_count_cached {κ α : Type} [BEq κ] [LawfulBEq κ] (k : κ) :
    ∀ (ks : List κ) (l : CachedLoader κ α), l.cache.lookup k ≠ none →
      (runLoads l ks).count k = 0 := by
  intro ks
  induction ks with
  | nil => intro l hl; rfl
  | cons k₁ ks ih =>
    intro l hl
    cases h₁ : l.cache.lookup k₁ with
    | some v =>
      simp only [runLoads, CachedLoader.load, h₁]
      exact ih l hl
    | none =>
      have hkne : k₁ ≠ k := fun h => hl (h ▸ h₁)
      simp only [runLoads, CachedLoader.load, h₁]
      simp only [if_true]
      rw [List.count_append]
      have hc0 : List.count k [k₁] = 0 := by simp [List.count_cons, hkne]
      rw [hc0, Nat.zero_add]
      refine ih _ ?_
      have hne2 : (k == k₁) = false := beq_eq_false_iff_ne.mpr fun h => hkne h.symm
      simp only [List.lookup, hne2]
      exact hl

/-- Across any serial sequence of loads, the store is reached at most once
per key. -/
theorem runLoads_count_le_one {κ α : Type} [BEq κ] [LawfulBEq κ] (k : κ) :
    ∀ (ks : List κ) (l : CachedLoader κ α), (runLoads l ks).count k ≤ 1 := by
  intro ks
  induction ks with
  | nil => intro l; simp [runLoads]
  | cons k₁ ks ih =>
    intro l
    cases h₁ : l.cache.lookup k₁ with
    | some v =>
      simp only [runLoads, CachedLoader.load, h₁]
      exact ih l
    | none =>
      simp only [runLoads, CachedLoader.load, h₁]
      simp only [if_true]
      rw [List.count_append]
      by_cases hk : k₁ = k
      · subst hk
        have h0 : (runLoads (⟨l.batchFn, (k₁, l.batchFn k₁) :: l.cache⟩ :
            CachedLoader κ α) ks).count k₁ = 0 := by
          refine runLoads_count_cached k₁ ks _ ?_
          simp [List.lookup]
        rw [h0]
        simp [List.count_cons]
      · have hc0 : List.count k [k₁] = 0 := by
          simp [List.count_cons, hk]
        rw [hc0, Nat.zero_add]
        exact ih _

/-- C5: within one request context built by `contextWithLoaders`, a second
load for the same cache key is served by the loader cache — across any
serial sequence of loads on any of the installed loaders, the store receives
at most one list per unique key. -/
theorem C5_loader_cache_coalesces (cfg : ServiceConfig) (lk : Nat)
    (loader : CachedLoader GoStr DynResult) (ks : List GoStr) (k : GoStr)
    (h : contextWithLoaders cfg lk = some loader) :
    (runLoads loader ks).count k ≤ 1 :=
  runLoads_count_le_one k ks loader

/-- Witness for C5: loading the same key twice reaches the store at most
once. -/
theorem C5_loader_cache_coalesces_witness :
    (runLoads wAssetLoader [[], []]).count ([] : GoStr) ≤ 1 :=
  C5_loader_cache_coalesces wServiceConfig assetsLoaderKey wAssetLoader
    [[], []] [] rfl

/-- A failed type assertion leaves the records nil. -/
theorem typeAssert_data_false {α : Type} (f : LoaderValue → Option (List α))
    (v : Option LoaderValue) (h : (typeAssert f v).2 = false) :
    (typeAssert f v).1 = [] := by
  cases v with
  | none => rfl
  | some lv =>
    cases hf : f lv with
    | none => simp [typeAssert, hf]
    | some l => simp [typeAssert, hf] at h

/-- C10: for every typed load function, when the loader reports no error but
the result value is not the expected slice type, the function returns nil
records and an error wrapping `errUnexpectedLoaderResult`; a loader error,
when present, is returned in preference to the type-mismatch error. -/
theorem C10_load_unexpected_result
    (loaders : Nat → Option (CachedLoader GoStr DynResult)) (ns entity : GoStr) :
    (∀ loader, loaders assetsLoaderKey = some loader →
      (∀ v, (loader.load ns).1 = (v, none) → (asAssets v).2 = false →
        loadAssets (some loaders) ns =
          ([], some (GoErr.wrapped "asset loader" GoErr.errUnexpectedLoaderResult))) ∧
      (∀ v e, (loader.load ns).1 = (v, some e) →
        loadAssets (some loaders) ns = ((asAssets v).1, some e))) ∧
    (∀ loader, loaders checkConfigsLoaderKey = some loader →
      (∀ v, (loader.load ns).1 = (v, none) → (asCheckConfigs v).2 = false →
        loadCheckConfigs (some loaders) ns =
          ([], some (GoErr.wrapped "check loader" GoErr.errUnexpectedLoaderResult))) ∧
      (∀ v e, (loader.load ns).1 = (v, some e) →
        loadCheckConfigs (some loaders) ns = ((asCheckConfigs v).1, some e))) ∧
    (∀ loader, loaders entitiesLoaderKey = some loader →
      (∀ v, (loader.load ns).1 = (v, none) → (asEntities v).2 = false →
        loadEntities (some loaders) ns =
          ([], some (GoErr.wrapped "entity loader" GoErr.errUnexpectedLoaderResult))) ∧
      (∀ v e, (loader.load ns).1 = (v, some e) →
        loadEntities (some loaders) ns = ((asEntities v).1, some e))) ∧
    (∀ loader, loaders eventsLoaderKey = some loader →
      (∀ v, (loader.load (eventCacheKey.toStr ⟨ns, entity⟩)).1 = (v, none) →
        (asEvents v).2 = false →
        loadEvents (some loaders) ns entity =
          ([], some (GoErr.wrapped "event loader" GoErr.errUnexpectedLoaderResult))) ∧
      (∀ v e, (loader.load (eventCacheKey.toStr ⟨ns, entity⟩)).1 = (v, some e) →
        loadEvents (some loaders) ns entity = ((asEvents v).1, some e))) ∧
    (∀ loader, loaders eventFiltersLoaderKey = some loader →
      (∀ v, (loader.load ns).1 = (v, none) → (asEventFilters v).2 = false →
        loadEventFilters (some loaders) ns =
          ([], some (GoErr.wrapped "filter loader" GoErr.errUnexpectedLoaderResult))) ∧
      (∀ v e, (loader.load ns).1 = (v, some e) →
        loadEventFilters (some loaders) ns = ((asEventFilters v).1, some e))) ∧
    (∀ loader, loaders handlersLoaderKey = some loader →
      (∀ v, (loader.load ns).1 = (v, none) → (asHandlers v).2 = false →
        loadHandlers (some loaders) ns =
          ([], some (GoErr.wrapped "handler loader" GoErr.errUnexpectedLoaderResult))) ∧
      (∀ v e, (loader.load ns).1 = (v, some e) →
        loadHandlers (some loaders) ns = ((asHandlers v).1, some e))) ∧
    (∀ loader, loaders mutatorsLoaderKey = some loader →
      (∀ v, (loader.load ns).1 = (v, none) → (asMutators v).2 = false →
        loadMutators (some loaders) ns =
          ([], some (GoErr.wrapped "mutator loader" GoErr.errUnexpectedLoaderResult))) ∧
      (∀ v e, (loader.load ns).1 = (v, some e) →
        loadMutators (some loaders) ns = ((asMutators v).1, some e))) ∧
    (∀ loader, loaders namespacesLoaderKey = some loader →
      (∀ v, (loader.load ['*']).1 = (v, none) → (asNamespaces v).2 = false →
        loadNamespaces (some loaders) =
          ([], some (GoErr.wrapped "namespace loader" GoErr.errUnexpectedLoaderResult))) ∧
      (∀ v e, (loader.load ['*']).1 = (v, some e) →
        loadNamespaces (some loaders) = ((asNamespaces v).1, some e))) ∧
    (∀ loader, loaders silencedsLoaderKey = some loader →
      (∀ v, (loader.load ns).1 = (v, none) → (asSilenceds v).2 = false →
        loadSilenceds (some loaders) ns =
          ([], some (GoErr.wrapped "silenced loader" GoErr.errUnexpectedLoaderResult))) ∧
      (∀ v e, (loader.load ns).1 = (v, some e) →
        loadSilenceds (some loaders) ns = ((asSilenceds v).1, some e))) := by
  refine ⟨?_, ?_, ?_, ?_, ?_, ?_, ?_, ?_, ?_⟩ <;> intro loader hl <;> refine ⟨?_, ?_⟩
  · intro v hv hfalse
    simp only [asAssets] at hfalse
    simp only [loadAssets, getLoader, hl, hv, asAssets]
    rw [typeAssert_data_false _ _ hfalse]
    simp [hfalse]
  · intro v e hv
    simp only [loadAssets, getLoader, hl, hv]
    simp
  · intro v hv hfalse
    simp only [asCheckConfigs] at hfalse
    simp only [loadCheckConfigs, getLoader, hl, hv, asCheckConfigs]
    rw [typeAssert_data_false _ _ hfalse]
    simp [hfalse]
  · intro v e hv
    simp only [loadCheckConfigs, getLoader, hl, hv]
    simp
  · intro v hv hfalse
    simp only [asEntities] at hfalse
    simp only [loadEntities, getLoader, hl, hv, asEntities]
    rw [typeAssert_data_false _ _ hfalse]
    simp [hfalse]
  · intro v e hv
    simp only [loadEntities, getLoader, hl, hv]
    simp
  · intro v hv hfalse
    simp only [asEvents] at hfalse
    simp only [loadEvents, getLoader, hl, hv, asEvents]
    rw [typeAssert_data_false _ _ hfalse]
    simp [hfalse]
  · intro v e hv
    simp only [loadEvents, getLoader, hl, hv]
    simp
  · intro v hv hfalse
    simp only [asEventFilters] at hfalse
    simp only [loadEventFilters, getLoader, hl, hv, asEventFilters]
    rw [typeAssert_data_false _ _ hfalse]
    simp [hfalse]
  · intro v e hv
    simp only [loadEventFilters, getLoader, hl, hv]
    simp
  · intro v hv hfalse
    simp only [asHandlers] at hfalse
    simp only [loadHandlers, getLoader, hl, hv, asHandlers]
    rw [typeAssert_data_false _ _ hfalse]
    simp [hfalse]
  · intro v e hv
    simp only [loadHandlers, getLoader, hl, hv]
    simp
  · intro v hv hfalse
    simp only [asMutators] at hfalse
    simp only [loadMutators, getLoader, hl, hv, asMutators]
    rw [typeAssert_data_false _ _ hfalse]
    simp [hfalse]
  · intro v e hv
    simp only [loadMutators, getLoader, hl, hv]
    simp
  · intro v hv hfalse
    simp only [asNamespaces] at hfalse
    simp only [loadNamespaces, getLoader, hl, hv, asNamespaces]
    rw [typeAssert_data_false _ _ hfalse]
    simp [hfalse]
  · intro v e hv
    simp only [loadNamespaces, getLoader, hl, hv]
    simp
  · intro v hv hfalse
    simp only [asSilenceds] at hfalse
    simp only [loadSilenceds, getLoader, hl, hv, asSilenceds]
    rw [typeAssert_data_false _ _ hfalse]
    simp [hfalse]
  · intro v e hv
    simp only [loadSilenceds, getLoader, hl, hv]
    simp

/-- Witness for C10: under a loader yielding a nil value with no error,
every typed load function returns nil records and its wrapped
`errUnexpectedLoaderResult`. -/
theorem C10_load_unexpected_result_witness :
    loadAssets (some wNilLoaders) [] =
      ([], some (GoErr.wrapped "asset loader" GoErr.errUnexpectedLoaderResult)) ∧
    loadCheckConfigs (some wNilLoaders) [] =
      ([], some (GoErr.wrapped "check loader" GoErr.errUnexpectedLoaderResult)) ∧
    loadEntities (some wNilLoaders) [] =
      ([], some (GoErr.wrapped "entity loader" GoErr.errUnexpectedLoaderResult)) ∧
    loadEvents (some wNilLoaders) [] [] =
      ([], some (GoErr.wrapped "event loader" GoErr.errUnexpectedLoaderResult)) ∧
    loadEventFilters (some wNilLoaders) [] =
      ([], some (GoErr.wrapped "filter loader" GoErr.errUnexpectedLoaderResult)) ∧
    loadHandlers (some wNilLoaders) [] =
      ([], some (GoErr.wrapped "handler loader" GoErr.errUnexpectedLoaderResult)) ∧
    loadMutators (some wNilLoaders) [] =
      ([], some (GoErr.wrapped "mutator loader" GoErr.errUnexpectedLoaderResult)) ∧
    loadNamespaces (some wNilLoaders) =
      ([], some (GoErr.wrapped "namespace loader" GoErr.errUnexpectedLoaderResult)) ∧
    loadSilenceds (some wNilLoaders) [] =
      ([], some (GoErr.wrapped "silenced loader" GoErr.errUnexpectedLoaderResult)) :=
  ⟨((C10_load_unexpected_result wNilLoaders [] []).1 wNilLoader rfl).1 none rfl rfl,
   ((C10_load_unexpected_result wNilLoaders [] []).2.1 wNilLoader rfl).1 none rfl rfl,
   ((C10_load_unexpected_result wNilLoaders [] []).2.2.1 wNilLoader rfl).1 none rfl rfl,
   ((C10_load_unexpected_result wNilLoaders [] []).2.2.2.1 wNilLoader rfl).1 none rfl rfl,
   ((C10_load_unexpected_result wNilLoaders [] []).2.2.2.2.1 wNilLoader rfl).1 none rfl rfl,
   ((C10_load_unexpected_result wNilLoaders [] []).2.2.2.2.2.1 wNilLoader rfl).1 none rfl rfl,
   ((C10_load_unexpected_result wNilLoaders [] []).2.2.2.2.2.2.1 wNilLoader rfl).1 none rfl rfl,
   ((C10_load_unexpected_result wNilLoaders [] []).2.2.2.2.2.2.2.1 wNilLoader rfl).1 none rfl rfl,
   ((C10_load_unexpected_result wNilLoaders [] []).2.2.2.2.2.2.2.2 wNilLoader rfl).1 none rfl rfl⟩

/-- A successful `fixCacheDir` changes nothing but the cache dir. -/
theorem fixCacheDir_store {cfg cfg₂ : BackendConfig}
    (h : fixCacheDir cfg = Except.ok cfg₂) :
    cfg₂.store = cfg.store ∧ cfg₂.devMode = cfg.devMode ∧ cfg₂.stateDir = cfg.stateDir := by
  unfold fixCacheDir at h
  split_ifs at h with h1 h2 <;>
    first
      | exact Except.noConfusion h
      | (injection h with h3; subst h3; exact ⟨rfl, rfl, rfl⟩)

/-- A successful `fixStateDir` preserves the store configuration. -/
theorem fixStateDir_store {cfg cfg₂ : BackendConfig}
    (h : fixStateDir cfg = Except.ok cfg₂) : cfg₂.store = cfg.store := by
  unfold fixStateDir at h
  split_ifs at h with h1 h2 <;>
    first
      | exact Except.noConfusion h
      | (injection h with h3; subst h3; rfl)

/-- `fixCacheDir` succeeds in dev mode or when a cache dir is set. -/
theorem fixCacheDir_ok (cfg : BackendConfig)
    (h : cfg.devMode = true ∨ cfg.cacheDir ≠ "") :
    ∃ cfg₂, fixCacheDir cfg = Except.ok cfg₂ := by
  unfold fixCacheDir
  split_ifs with h1 h2
  · exact ⟨_, rfl⟩
  · rcases h with h | h
    · exact absurd ⟨h, h2⟩ h1
    · exact absurd h2 h
  · exact ⟨_, rfl⟩

/-- `fixStateDir` succeeds in dev mode or when a state dir is set. -/
theorem fixStateDir_ok (cfg : BackendConfig)
    (h : cfg.devMode = true ∨ cfg.stateDir ≠ "") :
    ∃ cfg₂, fixStateDir cfg = Except.ok cfg₂ := by
  unfold fixStateDir
  split_ifs with h1 h2
  · exact ⟨_, rfl⟩
  · rcases h with h | h
    · exact absurd ⟨h, h2⟩ h1
    · exact absurd h2 h
  · exact ⟨_, rfl⟩

/-- The flag overrides only touch labels and annotations. -/
theorem applyFlagOverrides_store (v : ViperConfig) (cfg : BackendConfig) :
    (applyFlagOverrides v cfg).store = cfg.store := by
  unfold applyFlagOverrides
  split_ifs <;> rfl

/-- C6: with the configuration store selected as postgres and dev mode off
(which would override the selection), a start command whose log level parses
returns "postgres config store not supported yet" before building the
backend configuration or calling the initializer. -/
theorem C6_postgres_config_store (v : ViperConfig)
    (hlog : parseLogLevelOk v.logLevel = true)
    (hdev : v.devMode = false) (hcs : v.configStore = "postgres") :
    startRunE v = StartOutcome.earlyErr "postgres config store not supported yet" := by
  simp [startRunE, selectedConfigStore, hlog, hdev, hcs]

/-- Witness for C6 at a concrete configuration selecting postgres. -/
theorem C6_postgres_config_store_witness :
    startRunE { wViperBase with configStore := "postgres" } =
      StartOutcome.earlyErr "postgres config store not supported yet" :=
  C6_postgres_config_store { wViperBase with configStore := "postgres" }
    rfl rfl rfl

/-- C9: if the selected configuration store is not etcd while some etcd
configuration-store option is set, the start command never calls the
initializer, and — when the run gets past the earlier checks (log level,
postgres store, cache and state dirs) — it fails with exactly
"etcd configuration specified, but config-store is not etcd". -/
theorem C9_etcd_config_requires_etcd_store (v : ViperConfig)
    (hstore : selectedConfigStore v ≠ "etcd")
    (hetcd : anyConfig (etcdConfigOf v) = true) :
    (∀ cfg, startRunE v ≠ StartOutcome.initialized cfg) ∧
    (parseLogLevelOk v.logLevel = true → selectedConfigStore v ≠ "postgres" →
      v.devMode = true ∨ v.cacheDir ≠ "" → v.devMode = true ∨ v.stateDir ≠ "" →
      ∃ cfg, startRunE v =
        StartOutcome.configErr cfg
          "etcd configuration specified, but config-store is not etcd") := by
  constructor
  · intro cfg hinit
    unfold startRunE at hinit
    split_ifs at hinit with h1 h2
    unfold startAfterConfig at hinit
    cases hfc : fixCacheDir (buildConfig v) with
    | error msg =>
      simp only [hfc] at hinit
      exact StartOutcome.noConfusion hinit
    | ok cfg₁ =>
      simp only [hfc] at hinit
      cases hfs : fixStateDir cfg₁ with
      | error msg =>
        simp only [hfs] at hinit
        exact StartOutcome.noConfusion hinit
      | ok cfg₂ =>
        simp only [hfs] at hinit
        have hsto : (applyFlagOverrides v cfg₂).store = (buildConfig v).store := by
          rw [applyFlagOverrides_store, fixStateDir_store hfs, (fixCacheDir_store hfc).1]
        have hguard : (applyFlagOverrides v cfg₂).store.configurationStore ≠ "etcd" ∧
            anyConfig (applyFlagOverrides v cfg₂).store.etcdConfigurationStore = true := by
          rw [hsto]
          exact ⟨hstore, hetcd⟩
        unfold etcdGuard at hinit
        rw [if_pos hguard] at hinit
        exact StartOutcome.noConfusion hinit
  · intro hlog hpg hcache hstate
    obtain ⟨cfg₁, hfc⟩ := fixCacheDir_ok (buildConfig v) hcache
    obtain ⟨hc1, hc2, hc3⟩ := fixCacheDir_store hfc
    obtain ⟨cfg₂, hfs⟩ := fixStateDir_ok cfg₁ (by rw [hc2, hc3]; exact hstate)
    refine ⟨applyFlagOverrides v cfg₂, ?_⟩
    have hsto : (applyFlagOverrides v cfg₂).store = (buildConfig v).store := by
      rw [applyFlagOverrides_store, fixStateDir_store hfs, hc1]
    have hguard : (applyFlagOverrides v cfg₂).store.configurationStore ≠ "etcd" ∧
        anyConfig (applyFlagOverrides v cfg₂).store.etcdConfigurationStore = true := by
      rw [hsto]
      exact ⟨hstore, hetcd⟩
    unfold startRunE
    rw [if_neg (by simp [hlog]), if_neg hpg]
    unfold startAfterConfig
    simp only [hfc, hfs]
    unfold etcdGuard
    rw [if_pos hguard]

/-- Witness for C9: a non-etcd configuration store with etcd URLs set never
reaches the initializer. -/
theorem C9_etcd_config_requires_etcd_store_witness :
    startRunE
        { wViperBase with
          configStore := "dev"
          etcdURLs := ["http://127.0.0.1:2379"] } ≠
      StartOutcome.initialized
        (buildConfig
          { wViperBase with
            configStore := "dev"
            etcdURLs := ["http://127.0.0.1:2379"] }) :=
  (C9_etcd_config_requires_etcd_store
      { wViperBase with
        configStore := "dev"
        etcdURLs := ["http://127.0.0.1:2379"] }
      (by decide) (by decide)).1
    (buildConfig
      { wViperBase with
        configStore := "dev"
        etcdURLs := ["http://127.0.0.1:2379"] })

/-- C7: in server mode, with no flag, environment, or config-file override,
the recognised worker/buffer/timeout options default to: eventd workers 100
and buffer 1000, keepalived workers 100 and buffer 1000, pipelined workers
100 and buffer 1000, and agent write timeout 15 seconds. -/
theorem C7_server_defaults (ext : ExternalDefaults)
    (overrides : String → Option ViperValue)
    (h1 : overrides FlagEventdWorkers = none)
    (h2 : overrides FlagEventdBufferSize = none)
    (h3 : overrides FlagKeepalivedWorkers = none)
    (h4 : overrides FlagKeepalivedBufferSize = none)
    (h5 : overrides FlagPipelinedWorkers = none)
    (h6 : overrides FlagPipelinedBufferSize = none)
    (h7 : overrides FlagAgentWriteTimeout = none) :
    viperGet overrides ext true FlagEventdWorkers = some (ViperValue.vint 100) ∧
    viperGet overrides ext true FlagEventdBufferSize = some (ViperValue.vint 1000) ∧
    viperGet overrides ext true FlagKeepalivedWorkers = some (ViperValue.vint 100) ∧
    viperGet overrides ext true FlagKeepalivedBufferSize = some (ViperValue.vint 1000) ∧
    viperGet overrides ext true FlagPipelinedWorkers = some (ViperValue.vint 100) ∧
    viperGet overrides ext true FlagPipelinedBufferSize = some (ViperValue.vint 1000) ∧
    viperGet overrides ext true FlagAgentWriteTimeout = some (ViperValue.vint 15) := by
  refine ⟨?_, ?_, ?_, ?_, ?_, ?_, ?_⟩ <;>
    simp only [viperGet, h1, h2, h3, h4, h5, h6, h7] <;> rfl

/-- Witness for C7 with no overrides at all. -/
theorem C7_server_defaults_witness :
    viperGet (fun _ => none) ⟨0, 0, 0, "", ""⟩ true FlagEventdWorkers =
      some (ViperValue.vint 100) :=
  (C7_server_defaults ⟨0, 0, 0, "", ""⟩ (fun _ => none)
    rfl rfl rfl rfl rfl rfl rfl).1
